import Mathlib

/-!
# Compile-server backends (httpd/backends.cxx), header lines and print flush

A shallow embedding of the three compile-server backends, of the registry
`get_backends` and of the container build pipeline (httpd/backends.cxx), of
`jsonrpc_connection::_read_header_line` (language-server/jsonrpc.cxx) and of
`stp_print_flush` (runtime/print_new.c), followed by the properties proved
about them.

Conventions of the embedding:

* `std::string` is `String`; the only byte-level operations of the source
  (`::tolower`, `find_last_of` with an ASCII character, `substr`) act on
  ASCII characters, so they are embedded on the character list.
* `std::map<string,string>` is an association list whose operations keep the
  keys unique (`StdMap`).
* `int` exit codes are `Int`.
* What the source obtains from the host (glob, uname, the process runner,
  mkdir, uuid generation, ...) is a field of `host` or `world`: an arbitrary
  function, so that every theorem holds for every behaviour of the host.
* Indexing an empty `std::vector` is undefined behaviour: the embedded
  function then yields `none` as its return value.
-/

namespace Systemtap

/-! ## std::string helpers -/

/-- The call `transform(s.begin(), s.end(), s.begin(), ::tolower)`: every
character `A`..`Z` is replaced by its lower-case letter. -/
def transform_tolower (s : String) : String :=
  String.mk (s.data.map Char.toLower)

/-- Scan of `find_last_of`: `i` is the index of the head of the remaining
characters, `acc` the last match seen so far. -/
def find_last_of_from (c : Char) : List Char → Nat → Option Nat → Option Nat
  | [], _, acc => acc
  | x :: xs, i, acc => find_last_of_from c xs (i + 1) (if x = c then some i else acc)

/-- The call `s.find_last_of(c)` for a one-character set; `none` is
`string::npos`. -/
def find_last_of (s : String) (c : Char) : Option Nat :=
  find_last_of_from c s.data 0 none

/-- The call `s.substr(pos)`. -/
def substr_from (s : String) (pos : Nat) : String :=
  String.mk (s.data.drop pos)

/-- The call `s.substr(pos, n)`. -/
def substr (s : String) (pos n : Nat) : String :=
  String.mk ((s.data.drop pos).take n)

/-! ## std::map<string, string> -/

/-- A `std::map<string,string>`: the entries, at most one per key as long as
entries are only added through `StdMap.insert` and `StdMap.index`. -/
abbrev StdMap := List (String × String)

/-- The call `m.count(k)`: 1 when the key is present, 0 otherwise. -/
def StdMap.count (m : StdMap) (k : String) : Nat :=
  if m.any (fun e => e.1 == k) then 1 else 0

/-- The call `m.insert({k, v})`: no effect when the key is already present. -/
def StdMap.insert (m : StdMap) (k v : String) : StdMap :=
  if m.count k = 1 then m else m ++ [(k, v)]

/-- The call `m[k]`: the mapped value, after inserting an empty string for a
key that was absent. Returns the value and the updated map. -/
def StdMap.index (m : StdMap) (k : String) : String × StdMap :=
  match m.lookup k with
  | some v => (v, m)
  | none => ("", m ++ [(k, "")])

/-! ## Requests, build configuration, host -/

/-- The fields of `client_request_data` that backends.cxx reads. -/
structure client_request_data where
  kver : String
  arch : String
  distro_name : String
  env_vars : List String
  files : List String
  base_dir : String
  verbose : Int
deriving DecidableEq

/-- The preprocessor constants backends.cxx is compiled with. -/
structure config where
  BINDIR : String
  PKGLIBDIR : String
  PKGDATADIR : String
  PYTHON_BASENAME : String

/-- What the constructors of the backends probe on the host. -/
structure host where
  /-- The call `glob(pattern, GLOB_ERR, NULL, &globber)`: return code and
  `gl_pathv`. -/
  glob : String → Int × List String
  /-- The helper `kernel_release_from_build_tree` of util.cxx. -/
  kernel_release_from_build_tree : String → String
  /-- The vector filled by `get_distro_info`. -/
  get_distro_info : List String
  /-- The field `machine` filled by `uname`. -/
  uname_machine : String
  /-- The helper `find_executable` of util.cxx; `none` when it throws. -/
  find_executable : String → Option String

/-! ## Local backend: probe and can_generate_module -/

/-- The private members of `local_backend`. -/
structure local_backend where
  supported_kernels : StdMap
  distro_name : String
  arch : String
deriving DecidableEq

/-- The constructor `local_backend::local_backend()`. -/
def local_backend.ctor (h : host) : local_backend :=
  let g := h.glob "/lib/modules/*/build"
  if g.1 ≠ 0 then
    { supported_kernels := [], distro_name := "", arch := "" }
  else
    let supported_kernels := g.2.foldl
      (fun (m : StdMap) path => m.insert (h.kernel_release_from_build_tree path) path) []
    let distro_name :=
      match h.get_distro_info with
      | [] => ""
      | info0 :: _ => transform_tolower info0
    { supported_kernels := supported_kernels, distro_name := distro_name,
      arch := h.uname_machine }

/-- The method `local_backend::can_generate_module`. -/
def local_backend.can_generate_module (self : local_backend)
    (crd : client_request_data) : Bool :=
  if self.supported_kernels.count crd.kver = 1 ∧ self.arch = crd.arch
      ∧ self.distro_name = crd.distro_name then
    true
  else
    false

/-! ## Container backend: probe and can_generate_module -/

/-- The private members of `docker_backend`. -/
structure docker_backend where
  docker_path : String
  datadir : String
  data_files : StdMap
  arch : String
  docker_build_container_script_path : String
deriving DecidableEq

/-- The body of the loop over the globbed description files in the
constructor of `docker_backend`. -/
def docker_backend.add_data_file (data_files : StdMap) (path : String) : StdMap :=
  match find_last_of path '/' with
  | none => data_files
  | some found =>
    let filename := substr_from path (found + 1)
    match find_last_of filename '.' with
    | none => data_files
    | some found =>
      let distro := transform_tolower (substr filename 0 found)
      data_files.insert distro path

/-- The constructor `docker_backend::docker_backend()`. -/
def docker_backend.ctor (cfg : config) (h : host) : docker_backend :=
  let docker_path :=
    match h.find_executable "docker" with
    | some p => if p = "docker" then "" else p
    | none => ""
  let docker_build_container_script_path :=
    cfg.PKGLIBDIR ++ "/httpd/docker/stap_build_docker_image.py"
  let datadir := cfg.PKGDATADIR ++ "/httpd/docker"
  let g := h.glob (datadir ++ "/*.json")
  if g.1 ≠ 0 then
    { docker_path := docker_path, datadir := datadir, data_files := [], arch := "",
      docker_build_container_script_path := docker_build_container_script_path }
  else
    { docker_path := docker_path, datadir := datadir,
      data_files := g.2.foldl docker_backend.add_data_file [],
      arch := h.uname_machine,
      docker_build_container_script_path := docker_build_container_script_path }

/-- The method `docker_backend::can_generate_module`. -/
def docker_backend.can_generate_module (self : docker_backend)
    (crd : client_request_data) : Bool :=
  if self.docker_path = "" then
    false
  else if self.data_files.count crd.distro_name = 1 ∧ self.arch = crd.arch then
    true
  else
    false

/-! ## Default backend: can_generate_module -/

/-- The method `default_backend::can_generate_module`. -/
def default_backend.can_generate_module (_crd : client_request_data) : Bool :=
  true

/-! ## The registry -/

/-- An object of a class derived from `backend_base`, with its members. -/
inductive backend_base where
  | local_backend (self : Systemtap.local_backend)
  | docker_backend (self : Systemtap.docker_backend)
  | default_backend
deriving DecidableEq

/-- The virtual call `b->can_generate_module(crd)`. -/
def backend_base.can_generate_module (b : backend_base)
    (crd : client_request_data) : Bool :=
  match b with
  | .local_backend self => self.can_generate_module crd
  | .docker_backend self => self.can_generate_module crd
  | .default_backend => default_backend.can_generate_module crd

/-- The part of the process state that backends.cxx touches. A pointer to a
backend is the index of its cell in `heap`. -/
structure process_state where
  /-- Every object created by `new`, in creation order; `none` once deleted. -/
  heap : List (Option backend_base)
  /-- The static vector `saved_backends`. -/
  saved_backends : List Nat
  /-- How many times `backends_atexit_handler` was passed to `std::atexit`. -/
  atexit_registered : Nat
  /-- The pointers passed to `delete`, in order. -/
  deleted : List Nat
deriving DecidableEq

/-- The expression `new T()`: a fresh cell, whose index is the pointer. -/
def process_state.new (st : process_state) (b : backend_base) : process_state × Nat :=
  ({ st with heap := st.heap ++ [some b] }, st.heap.length)

/-- The object a pointer refers to, if it is live. -/
def process_state.deref (st : process_state) (p : Nat) : Option backend_base :=
  (st.heap.get? p).join

/-- The statement `delete p`. -/
def process_state.delete (st : process_state) (p : Nat) : process_state :=
  { st with heap := st.heap.set p none, deleted := st.deleted ++ [p] }

/-- The virtual call `p->can_generate_module(crd)` through a pointer; `false`
stands for a dangling pointer, which no state built by `get_backends` has. -/
def process_state.can_generate_module (st : process_state) (p : Nat)
    (crd : client_request_data) : Bool :=
  match st.deref p with
  | some b => b.can_generate_module crd
  | none => false

/-- The function `backends_atexit_handler`. -/
def backends_atexit_handler (st : process_state) : process_state :=
  if ¬ st.saved_backends.isEmpty then
    let st1 := st.saved_backends.foldl (fun s it => s.delete it) st
    { st1 with saved_backends := [] }
  else
    st

/-- The function `get_backends`; the second component is the vector
`backends` after the call. -/
def get_backends (cfg : config) (h : host) (st : process_state)
    (backends : List Nat) : process_state × List Nat :=
  let st := { st with atexit_registered := st.atexit_registered + 1 }
  let st :=
    if st.saved_backends.isEmpty then
      let a := st.new (.local_backend (local_backend.ctor h))
      let st := { a.1 with saved_backends := a.1.saved_backends ++ [a.2] }
      let a := st.new (.docker_backend (docker_backend.ctor cfg h))
      let st := { a.1 with saved_backends := a.1.saved_backends ++ [a.2] }
      let a := st.new .default_backend
      { a.1 with saved_backends := a.1.saved_backends ++ [a.2] }
    else
      st
  -- backends.clear(); backends = saved_backends;
  let backends := backends.drop backends.length
  let backends := backends ++ st.saved_backends
  (st, backends)

/-- A sequence of calls of `get_backends`, each with its own host state and
its own output vector; the state after the last one. -/
def get_backends_repeatedly (cfg : config) :
    process_state → List (host × List Nat) → process_state
  | st, [] => st
  | st, c :: cs => get_backends_repeatedly cfg (get_backends cfg c.1 st c.2).1 cs

/-- What process exit does with `backends_atexit_handler`: std::atexit calls a
function once for each time it was registered. -/
def run_atexit_handlers (st : process_state) : process_state :=
  Nat.iterate backends_atexit_handler st.atexit_registered st

/-! ## Files written through std::ofstream (default backend) -/

/-- The files reachable by path. Two different path strings name two
different files. -/
structure filesystem where
  /-- The contents of the existing files; the first binding of a path is the
  current one. -/
  contents : List (String × String)
  /-- Whether `ofstream::open` on the path succeeds. -/
  can_open : String → Bool

/-- The contents of the file at `path`, `none` when there is no such file. -/
def filesystem.read (fs : filesystem) (path : String) : Option String :=
  fs.contents.lookup path

/-- A successful `stream.open(path)` in the default mode `ios::out`: the file
exists afterwards and is empty. -/
def filesystem.truncate (fs : filesystem) (path : String) : filesystem :=
  { fs with contents := (path, "") :: fs.contents }

/-- The statement `stream << text` on a stream opened on `path`. -/
def filesystem.append (fs : filesystem) (path text : String) : filesystem :=
  { fs with contents := (path, (fs.read path).getD "" ++ text) :: fs.contents }

/-- The method `default_backend::generate_module`: the returned status and the
files afterwards. -/
def default_backend.generate_module (crd : client_request_data) (_argv : List String)
    (_tmp_dir _uuid : String) (stdout_path stderr_path : String) (fs : filesystem) :
    Int × filesystem :=
  -- Create an empty stdout file.
  let fs := if fs.can_open stdout_path then fs.truncate stdout_path else fs
  -- Create an stderr file with an error message.
  let fs :=
    if fs.can_open stderr_path then
      (fs.truncate stderr_path).append stderr_path
        ("Error: the server cannot create a module for kernel "
          ++ crd.kver ++ ", architecture " ++ crd.arch
          ++ ", distro " ++ crd.distro_name ++ "\n")
    else fs
  (1, fs)

/-! ## External commands -/

/-- The places of backends.cxx that call `execute_and_capture`. -/
inductive call_site where
  /-- In `local_backend::generate_module`. -/
  | local_stap
  /-- The image-build helper script. -/
  | build_image
  /-- The command docker build for the files of client.zip. -/
  | docker_build
  /-- The command atomic mount. -/
  | atomic_mount
  /-- The run of stap in `docker_backend::generate_module`. -/
  | stap
  /-- The command atomic unmount. -/
  | atomic_unmount
  /-- The command docker rm. -/
  | docker_rm
  /-- The command docker rmi. -/
  | docker_rmi
deriving DecidableEq

/-- The arguments of one call of `execute_and_capture`. -/
structure invocation where
  verbose : Int
  cmd : List String
  env_vars : List String
  stdout_path : String
  stderr_path : String
deriving DecidableEq

/-- What a backend does to the outside, with the answer it got. The call site
of an `exec` is a label for the reader of the trace; the process runner does
not see it. -/
inductive event where
  /-- A file opened through an ofstream, written and closed. -/
  | ofstream_write (path content : String)
  /-- A call of `execute_and_capture` and the exit code it returned. -/
  | exec (site : call_site) (inv : invocation) (rc : Int)
  /-- A call of `mkdir` and its return value. -/
  | mkdir (path : String) (mode : Nat) (rc : Int)
  /-- A call of `get_uuid` and the string it returned. -/
  | get_uuid (uuid : String)
deriving DecidableEq

/-- The outside of the backends while a module is generated: each answer may
depend on everything the call has done so far. -/
structure world where
  /-- The process runner `execute_and_capture` of util.cxx. -/
  execute_and_capture : List event → invocation → Int
  /-- The system call `mkdir`. -/
  mkdir : List event → String → Nat → Int
  /-- The helper `get_uuid`. -/
  get_uuid : List event → String
  /-- The text `json_object_to_json_string(crd->get_json_object())`. -/
  get_json_string : client_request_data → String

/-- The result of a `generate_module`: the returned status (`none` when the
call ran into undefined behaviour) and what it did before. The calls of
`server_error`, which only log, are not recorded. -/
structure outcome where
  ret : Option Int
  trace : List event
deriving DecidableEq

/-- The call sites of the commands of a trace, in order. -/
def exec_sites : List event → List call_site
  | [] => []
  | event.exec site _ _ :: t => site :: exec_sites t
  | _ :: t => exec_sites t

/-- The arguments `(2, args, crd->env_vars, out, err)` that every call of
`execute_and_capture` in backends.cxx passes. -/
def command (crd : client_request_data) (args : List String) (out err : String) :
    invocation :=
  { verbose := 2, cmd := args, env_vars := crd.env_vars, stdout_path := out,
    stderr_path := err }

/-- One call `execute_and_capture(2, args, crd->env_vars, out, err)` made at
`site` after the events `t`: the exit code and the events afterwards. -/
def run_command (w : world) (site : call_site) (crd : client_request_data)
    (args : List String) (out err : String) (t : List event) : Int × List event :=
  (w.execute_and_capture t (command crd args out err),
   t ++ [event.exec site (command crd args out err)
      (w.execute_and_capture t (command crd args out err))])

/-- The method `local_backend::generate_module`. -/
def local_backend.generate_module (cfg : config) (w : world) (_self : local_backend)
    (crd : client_request_data) (argv : List String) (_tmp_dir _uuid : String)
    (stdout_path stderr_path : String) : outcome :=
  let cmd := argv
  if cmd = [] then
    -- cmd[0] on an empty vector
    { ret := none, trace := [] }
  else
    let cmd := cmd.set 0 (cfg.BINDIR ++ "/stap")
    let ran := run_command w .local_stap crd cmd stdout_path stderr_path []
    { ret := some ran.1, trace := ran.2 }

/-! ## Container backend: generate_module

The body of `docker_backend::generate_module` is embedded block by block, in
source order; each block maps the local variables before it (`build_state`)
to the local variables after it. -/

/-- The call `v.insert(v.begin() + pos, x)`. -/
def vector_insert (v : List String) (pos : Nat) (x : String) : List String :=
  v.take pos ++ x :: v.drop pos

/-- The path the output of docker commands is captured to. -/
def docker_stdout_path (crd : client_request_data) (tmp_dir stdout_path : String) : String :=
  if crd.verbose ≥ 3 then stdout_path else tmp_dir ++ "/docker_stdout"

/-- The path the error output of docker commands is captured to. -/
def docker_stderr_path (crd : client_request_data) (tmp_dir stderr_path : String) : String :=
  if crd.verbose ≥ 3 then stderr_path else tmp_dir ++ "/docker_stderr"

/-- The local variables of `docker_backend::generate_module`, and what it has
done so far. -/
structure build_state where
  rc : Int
  trace : List event
  stap_image_uuid : String
  images_to_remove : List String
  containers_to_remove : List String
deriving DecidableEq

/-- From the start of `docker_backend::generate_module` to the return of the
image-build helper: the backend afterwards (`data_files[crd->distro_name]`
adds an entry for an unknown distribution) and the local variables. -/
def docker_backend.build_image (cfg : config) (w : world) (self : docker_backend)
    (crd : client_request_data) (tmp_dir uuid stdout_path stderr_path : String) :
    docker_backend × build_state :=
  -- Write a JSON representation of the client_request_data to a file.
  let build_data_path := tmp_dir ++ "/build_data.json"
  let t := [event.ofstream_write build_data_path (w.get_json_string crd)]
  let stap_image_uuid := uuid
  -- Kick off building the docker image.
  let distro_file := self.data_files.index crd.distro_name
  let docker_args :=
    [cfg.PYTHON_BASENAME, self.docker_build_container_script_path,
     "--distro-file", distro_file.1,
     "--build-file", build_data_path,
     "--data-dir", self.datadir,
     stap_image_uuid]
  let ran := run_command w .build_image crd docker_args
    (docker_stdout_path crd tmp_dir stdout_path) (docker_stderr_path crd tmp_dir stderr_path) t
  ({ self with data_files := distro_file.2 },
   { rc := ran.1, trace := ran.2, stap_image_uuid := stap_image_uuid,
     images_to_remove := [], containers_to_remove := [] })

/-- The body of the loop over `crd->files` for the element "client.zip", up
to the test of the exit code of docker build. -/
def docker_backend.build_client_files (w : world) (crd : client_request_data)
    (tmp_dir docker_stdout_path docker_stderr_path : String) (s : build_state) :
    build_state :=
  -- First, create a docker file.
  let docker_file_path := crd.base_dir ++ "/files.docker"
  let t := s.trace ++ [event.ofstream_write docker_file_path
    ("FROM " ++ s.stap_image_uuid ++ "\n"
      ++ "MAINTAINER http://sourceware.org/systemtap/" ++ "\n"
      ++ "COPY . " ++ tmp_dir ++ "/" ++ "\n")]
  -- Grab another uuid.
  let stap_image_uuid := w.get_uuid t
  let t := t ++ [event.get_uuid stap_image_uuid]
  -- Now run "docker build" with that docker file.
  let ran := run_command w .docker_build crd
    ["docker", "build", "-t", stap_image_uuid, "-f", docker_file_path, crd.base_dir]
    docker_stdout_path docker_stderr_path t
  { s with rc := ran.1, trace := ran.2, stap_image_uuid := stap_image_uuid }

/-- The loop over `crd->files` of `docker_backend::generate_module`, on the
files not yet visited. The flag is true when the body executed `return -1`. -/
def docker_backend.client_zip_loop (w : world) (crd : client_request_data)
    (tmp_dir docker_stdout_path docker_stderr_path : String) :
    List String → build_state → build_state × Bool
  | [], s => (s, false)
  | i :: rest, s =>
    if i = "client.zip" then
      let s := docker_backend.build_client_files w crd tmp_dir
        docker_stdout_path docker_stderr_path s
      if s.rc ≠ 0 then
        (s, true)
      else
        -- We want to remove the image that we just built; break.
        ({ s with images_to_remove := s.images_to_remove ++ [s.stap_image_uuid] }, false)
    else
      docker_backend.client_zip_loop w crd tmp_dir docker_stdout_path docker_stderr_path rest s

/-- The block "Create a temporary directory to use". -/
def docker_backend.mkdir_sysroot (w : world) (tmp_dir : String) (s : build_state) :
    build_state :=
  let sysroot_dir := tmp_dir ++ "/sysroot"
  { s with rc := w.mkdir s.trace sysroot_dir 0o700,
           trace := s.trace ++ [event.mkdir sysroot_dir 0o700
             (w.mkdir s.trace sysroot_dir 0o700)] }

/-- The block "Mount the docker image to the temporary directory". -/
def docker_backend.mount_image (w : world) (crd : client_request_data)
    (tmp_dir docker_stdout_path docker_stderr_path : String) (s : build_state) :
    build_state :=
  let sysroot_dir := tmp_dir ++ "/sysroot"
  if s.rc = 0 then
    let ran := run_command w .atomic_mount crd
      ["atomic", "mount", s.stap_image_uuid, sysroot_dir]
      docker_stdout_path docker_stderr_path s.trace
    { s with rc := ran.1, trace := ran.2 }
  else
    s

/-- The block "Run stap, using the mounted docker image as the sysroot":
the variable `saved_rc` and the other local variables afterwards; `none` when
`docker_args[0]` is evaluated on an empty vector. -/
def docker_backend.run_stap (cfg : config) (w : world) (crd : client_request_data)
    (argv : List String) (tmp_dir stdout_path stderr_path : String) (s : build_state) :
    Option (Int × build_state) :=
  let sysroot_dir := tmp_dir ++ "/sysroot"
  let saved_rc := s.rc
  if s.rc = 0 then
    let docker_args := argv
    if docker_args = [] then
      none
    else
      -- Make sure we're running the correct version of systemtap.
      let docker_args := docker_args.set 0 (cfg.BINDIR ++ "/stap")
      -- Insert our sysroot option into the stap command line.
      let sysroot_option := "--sysroot=" ++ sysroot_dir
      let docker_args := vector_insert docker_args 1 sysroot_option
      let ran := run_command w .stap crd docker_args stdout_path stderr_path s.trace
      some (ran.1, { s with trace := ran.2 })
  else
    some (saved_rc, s)

/-- The block "Unmount the docker image". -/
def docker_backend.unmount_image (w : world) (crd : client_request_data)
    (tmp_dir docker_stdout_path docker_stderr_path : String) (s : build_state) :
    build_state :=
  let sysroot_dir := tmp_dir ++ "/sysroot"
  if s.rc = 0 then
    let ran := run_command w .atomic_unmount crd ["atomic", "unmount", sysroot_dir]
      docker_stdout_path docker_stderr_path s.trace
    { s with rc := ran.1, trace := ran.2 }
  else
    s

/-- The block `if (! containers_to_remove.empty())`. -/
def docker_backend.remove_containers (w : world) (crd : client_request_data)
    (docker_stdout_path docker_stderr_path : String) (s : build_state) : build_state :=
  if s.containers_to_remove ≠ [] then
    let ran := run_command w .docker_rm crd (["docker", "rm"] ++ s.containers_to_remove)
      docker_stdout_path docker_stderr_path s.trace
    { s with rc := ran.1, trace := ran.2 }
  else
    s

/-- The block `if (! images_to_remove.empty())`. -/
def docker_backend.remove_images (w : world) (crd : client_request_data)
    (docker_stdout_path docker_stderr_path : String) (s : build_state) : build_state :=
  if s.images_to_remove ≠ [] then
    let ran := run_command w .docker_rmi crd (["docker", "rmi"] ++ s.images_to_remove)
      docker_stdout_path docker_stderr_path s.trace
    { s with rc := ran.1, trace := ran.2 }
  else
    s

/-- The part of `docker_backend::generate_module` after the loop over
`crd->files`: mkdir, mount, run, unmount, removals, `return saved_rc`. -/
def docker_backend.mount_run_cleanup (cfg : config) (w : world) (crd : client_request_data)
    (argv : List String) (tmp_dir stdout_path stderr_path : String) (s : build_state) :
    outcome :=
  let dout := docker_stdout_path crd tmp_dir stdout_path
  let derr := docker_stderr_path crd tmp_dir stderr_path
  match docker_backend.run_stap cfg w crd argv tmp_dir stdout_path stderr_path
      (docker_backend.mount_image w crd tmp_dir dout derr
        (docker_backend.mkdir_sysroot w tmp_dir s)) with
  | none =>
    { ret := none,
      trace := (docker_backend.mount_image w crd tmp_dir dout derr
        (docker_backend.mkdir_sysroot w tmp_dir s)).trace }
  | some ran =>
    { ret := some ran.1,
      trace := (docker_backend.remove_images w crd dout derr
        (docker_backend.remove_containers w crd dout derr
          (docker_backend.unmount_image w crd tmp_dir dout derr ran.2))).trace }

/-- The method `docker_backend::generate_module`: the backend afterwards and
the outcome. -/
def docker_backend.generate_module (cfg : config) (w : world) (self : docker_backend)
    (crd : client_request_data) (argv : List String) (tmp_dir uuid : String)
    (stdout_path stderr_path : String) : docker_backend × outcome :=
  let dout := docker_stdout_path crd tmp_dir stdout_path
  let derr := docker_stderr_path crd tmp_dir stderr_path
  let built := docker_backend.build_image cfg w self crd tmp_dir uuid stdout_path stderr_path
  if built.2.rc ≠ 0 then
    (built.1, { ret := some (-1), trace := built.2.trace })
  else
    let looped := docker_backend.client_zip_loop w crd tmp_dir dout derr crd.files built.2
    if looped.2 then
      (built.1, { ret := some (-1), trace := looped.1.trace })
    else
      (built.1,
       docker_backend.mount_run_cleanup cfg w crd argv tmp_dir stdout_path stderr_path looped.1)

/-! ## The events of the container pipeline, by name

Used to state which traces `docker_backend::generate_module` can leave. -/

/-- The write of build_data.json. -/
def build_data_event (w : world) (crd : client_request_data) (tmp_dir : String) : event :=
  event.ofstream_write (tmp_dir ++ "/build_data.json") (w.get_json_string crd)

/-- The run of the image-build helper, with exit code `rc`. -/
def build_image_event (cfg : config) (self : docker_backend) (crd : client_request_data)
    (tmp_dir uuid stdout_path stderr_path : String) (rc : Int) : event :=
  event.exec .build_image
    (command crd
      [cfg.PYTHON_BASENAME, self.docker_build_container_script_path,
       "--distro-file", (self.data_files.index crd.distro_name).1,
       "--build-file", tmp_dir ++ "/build_data.json",
       "--data-dir", self.datadir,
       uuid]
      (docker_stdout_path crd tmp_dir stdout_path)
      (docker_stderr_path crd tmp_dir stderr_path)) rc

/-- The write of files.docker, on top of the image `uuid`. -/
def docker_file_event (crd : client_request_data) (tmp_dir uuid : String) : event :=
  event.ofstream_write (crd.base_dir ++ "/files.docker")
    ("FROM " ++ uuid ++ "\n"
      ++ "MAINTAINER http://sourceware.org/systemtap/" ++ "\n"
      ++ "COPY . " ++ tmp_dir ++ "/" ++ "\n")

/-- The run of docker build for the image `u`, with exit code `rc`. -/
def docker_build_event (crd : client_request_data) (tmp_dir stdout_path stderr_path : String)
    (u : String) (rc : Int) : event :=
  event.exec .docker_build
    (command crd
      ["docker", "build", "-t", u, "-f", crd.base_dir ++ "/files.docker", crd.base_dir]
      (docker_stdout_path crd tmp_dir stdout_path)
      (docker_stderr_path crd tmp_dir stderr_path)) rc

/-- The call of mkdir for the sysroot directory, with return value `rc`. -/
def mkdir_event (tmp_dir : String) (rc : Int) : event :=
  event.mkdir (tmp_dir ++ "/sysroot") 0o700 rc

/-- The run of atomic mount of the image `img`, with exit code `rc`. -/
def mount_event (crd : client_request_data) (tmp_dir stdout_path stderr_path : String)
    (img : String) (rc : Int) : event :=
  event.exec .atomic_mount
    (command crd ["atomic", "mount", img, tmp_dir ++ "/sysroot"]
      (docker_stdout_path crd tmp_dir stdout_path)
      (docker_stderr_path crd tmp_dir stderr_path)) rc

/-- The run of stap, with exit code `rc`. -/
def stap_event (cfg : config) (crd : client_request_data) (argv : List String)
    (tmp_dir stdout_path stderr_path : String) (rc : Int) : event :=
  event.exec .stap
    (command crd
      (vector_insert (argv.set 0 (cfg.BINDIR ++ "/stap")) 1
        ("--sysroot=" ++ (tmp_dir ++ "/sysroot")))
      stdout_path stderr_path) rc

/-- The run of atomic unmount, with exit code `rc`. -/
def unmount_event (crd : client_request_data) (tmp_dir stdout_path stderr_path : String)
    (rc : Int) : event :=
  event.exec .atomic_unmount
    (command crd ["atomic", "unmount", tmp_dir ++ "/sysroot"]
      (docker_stdout_path crd tmp_dir stdout_path)
      (docker_stderr_path crd tmp_dir stderr_path)) rc

/-- The run of docker rmi on the images `imgs`, with exit code `rc`. -/
def rmi_event (crd : client_request_data) (tmp_dir stdout_path stderr_path : String)
    (imgs : List String) (rc : Int) : event :=
  event.exec .docker_rmi
    (command crd (["docker", "rmi"] ++ imgs)
      (docker_stdout_path crd tmp_dir stdout_path)
      (docker_stderr_path crd tmp_dir stderr_path)) rc

/-- The events of the removal blocks when no container is to be removed:
none when `imgs` is empty, else one docker rmi of `imgs`. -/
def removal_shape (crd : client_request_data) (tmp_dir stdout_path stderr_path : String)
    (imgs : List String) (R : List event) : Prop :=
  (imgs = [] ∧ R = [])
  ∨ (imgs ≠ [] ∧ ∃ rc, R = [rmi_event crd tmp_dir stdout_path stderr_path imgs rc])

/-- The outcomes of the part after the loop over `crd->files`, entered after
the events `pre` with the image `img` and the images `imgs` to remove:
mkdir failed; mount failed; mounted with an empty argv; mounted and run. -/
def tail_shape (cfg : config) (crd : client_request_data) (argv : List String)
    (tmp_dir stdout_path stderr_path : String) (pre : List event) (img : String)
    (imgs : List String) (o : outcome) : Prop :=
  ∃ R, removal_shape crd tmp_dir stdout_path stderr_path imgs R ∧
    ((∃ rcm, rcm ≠ 0 ∧ o = { ret := some rcm, trace := pre ++ [mkdir_event tmp_dir rcm] ++ R })
    ∨ (∃ mrc, mrc ≠ 0 ∧
        o = { ret := some mrc,
              trace := pre ++ [mkdir_event tmp_dir 0,
                mount_event crd tmp_dir stdout_path stderr_path img mrc] ++ R })
    ∨ (argv = [] ∧
        o = { ret := none,
              trace := pre ++ [mkdir_event tmp_dir 0,
                mount_event crd tmp_dir stdout_path stderr_path img 0] })
    ∨ (argv ≠ [] ∧ ∃ src urc,
        o = { ret := some src,
              trace := pre ++ [mkdir_event tmp_dir 0,
                mount_event crd tmp_dir stdout_path stderr_path img 0,
                stap_event cfg crd argv tmp_dir stdout_path stderr_path src,
                unmount_event crd tmp_dir stdout_path stderr_path urc] ++ R }))

/-- The outcomes of `docker_backend::generate_module`: the image-build helper
failed; docker build failed; docker build succeeded; no client.zip. -/
def generate_module_shape (cfg : config) (w : world) (self : docker_backend)
    (crd : client_request_data) (argv : List String)
    (tmp_dir uuid stdout_path stderr_path : String) (o : outcome) : Prop :=
  (∃ rc1, rc1 ≠ 0 ∧
    o = { ret := some (-1),
          trace := [build_data_event w crd tmp_dir,
            build_image_event cfg self crd tmp_dir uuid stdout_path stderr_path rc1] })
  ∨ ("client.zip" ∈ crd.files ∧ ∃ u rc2, rc2 ≠ 0 ∧
      o = { ret := some (-1),
            trace := [build_data_event w crd tmp_dir,
              build_image_event cfg self crd tmp_dir uuid stdout_path stderr_path 0,
              docker_file_event crd tmp_dir uuid, event.get_uuid u,
              docker_build_event crd tmp_dir stdout_path stderr_path u rc2] })
  ∨ ("client.zip" ∈ crd.files ∧ ∃ u,
      tail_shape cfg crd argv tmp_dir stdout_path stderr_path
        [build_data_event w crd tmp_dir,
          build_image_event cfg self crd tmp_dir uuid stdout_path stderr_path 0,
          docker_file_event crd tmp_dir uuid, event.get_uuid u,
          docker_build_event crd tmp_dir stdout_path stderr_path u 0] u [u] o)
  ∨ ("client.zip" ∉ crd.files ∧
      tail_shape cfg crd argv tmp_dir stdout_path stderr_path
        [build_data_event w crd tmp_dir,
          build_image_event cfg self crd tmp_dir uuid stdout_path stderr_path 0] uuid [] o)

/-! ## Language server: jsonrpc.cxx

The input file descriptor is the list of the bytes not yet read; a `read` of
one byte on an empty list does not return 1. -/

/-- The constant MAX_HEADER_LINELENGTH. -/
def MAX_HEADER_LINELENGTH : Nat := 256

/-- How `_read_header_line` can fail to return. -/
inductive read_failure where
  /-- The exception jsonrpc_error thrown when `read` does not return 1. -/
  | jsonrpc_error
  /-- The embedding was given fewer iterations than the loop needs. -/
  | out_of_fuel
deriving DecidableEq

/-- The condition of the for loop of `_read_header_line`, with `line[0..c)` the
bytes read so far, `c` their number. -/
def read_header_condition (line : List Char) : Bool :=
  let c := line.length
  decide (c < MAX_HEADER_LINELENGTH)
    && (decide (c < 2)
        || (decide (line.get? (c - 2) ≠ some '\r') && decide (line.get? (c - 1) ≠ some '\n')))

/-- The for loop of `_read_header_line`: the bytes stored in `line` and the
input left, after at most `fuel` iterations. -/
def read_header_loop :
    Nat → List Char → List Char → Except read_failure (List Char × List Char)
  | 0, line, input =>
    if read_header_condition line then .error .out_of_fuel else .ok (line, input)
  | fuel + 1, line, input =>
    if read_header_condition line then
      match input with
      | [] => .error .jsonrpc_error
      | b :: rest => read_header_loop fuel (line ++ [b]) rest
    else
      .ok (line, input)

/-- The assignment `s_line = line` of a char array to a string: the bytes up to
the first NUL. -/
def c_string (line : List Char) : String :=
  String.mk (line.takeWhile (fun b => b ≠ Char.ofNat 0))

/-- The method `jsonrpc_connection::_read_header_line`: the returned value,
the string stored in `s_line` and the input left. -/
def jsonrpc_connection._read_header_line (input : List Char) :
    Except read_failure (Bool × String × List Char) :=
  match read_header_loop MAX_HEADER_LINELENGTH [] input with
  | .error e => .error e
  | .ok (line, rest) =>
    let c := line.length
    -- line[c - 1] = '\0'
    let line := line.set (c - 1) (Char.ofNat 0)
    let s_line := c_string line
    .ok (decide (c > 2 ∧ c < MAX_HEADER_LINELENGTH), s_line, rest)

/-! ## Runtime: print_new.c (the path without STP_BULKMODE)

The spin lock and the calls of `dbug_trans` are left out. -/

/-- The fields of `_stp_pbuf` that `stp_print_flush` uses: `len` bytes of
`buf` are waiting to be sent. -/
structure _stp_pbuf where
  len : Nat
  buf : List Nat
deriving DecidableEq

/-- What `stp_print_flush` does to the transport: the sizes passed to
`_stp_data_write_reserve`, the contents of the entries passed to
`_stp_data_write_commit`, both in call order, and the counter
`_stp_transport_failures`. -/
structure transport where
  reserved : List Nat
  committed : List (List Nat)
  _stp_transport_failures : Nat
deriving DecidableEq

/-- The macro MAX_RESERVE_SIZE, for a `struct _stp_entry` of
`sizeof_stp_entry` bytes (below 4072, so that the unsigned subtraction does
not wrap). -/
def MAX_RESERVE_SIZE (sizeof_stp_entry : Nat) : Nat :=
  4080 - sizeof_stp_entry - 8

/-- The while loop of `stp_print_flush`, run for at most `fuel` iterations;
`none` when the iterations do not suffice. `reserve_ok` tells whether
`_stp_data_write_reserve` returns an entry. -/
def stp_print_flush_loop (sizeof_stp_entry : Nat) (reserve_ok : transport → Nat → Bool) :
    Nat → Nat → List Nat → transport → Option transport
  | 0, len, _, tr => if len > 0 then none else some tr
  | fuel + 1, len, bufp, tr =>
    if len > 0 then
      let cnt := if len > MAX_RESERVE_SIZE sizeof_stp_entry then
        MAX_RESERVE_SIZE sizeof_stp_entry else len
      let len := if len > MAX_RESERVE_SIZE sizeof_stp_entry then
        len - MAX_RESERVE_SIZE sizeof_stp_entry else 0
      -- entry = _stp_data_write_reserve(cnt)
      if reserve_ok tr cnt then
        -- memcpy(entry->buf, bufp, cnt); _stp_data_write_commit(entry); bufp += cnt
        stp_print_flush_loop sizeof_stp_entry reserve_ok fuel len (bufp.drop cnt)
          { tr with reserved := tr.reserved ++ [cnt],
                    committed := tr.committed ++ [bufp.take cnt] }
      else
        -- atomic_inc (&_stp_transport_failures); break
        some { tr with reserved := tr.reserved ++ [cnt],
                       _stp_transport_failures := tr._stp_transport_failures + 1 }
    else
      some tr

/-- The function `stp_print_flush` without STP_BULKMODE: the print buffer and
the transport afterwards. -/
def stp_print_flush (sizeof_stp_entry : Nat) (reserve_ok : transport → Nat → Bool)
    (fuel : Nat) (pb : _stp_pbuf) (tr : transport) : Option (_stp_pbuf × transport) :=
  let len := pb.len
  -- check to see if there is anything in the buffer
  if len = 0 then
    some (pb, tr)
  else
    let pb := { pb with len := 0 }
    match stp_print_flush_loop sizeof_stp_entry reserve_ok fuel len pb.buf tr with
    | none => none
    | some tr => some (pb, tr)

/-! ## Concrete inputs on which the theorems are exercised -/

/-- A request for kernel 5.14.0-x on x86_64, distribution fedora38. -/
def sample_request : client_request_data :=
  { kver := "5.14.0-x", arch := "x86_64", distro_name := "fedora38",
    env_vars := ["LANG=C"], files := [], base_dir := "/srv/req", verbose := 0 }

/-- A host with one kernel build tree, docker installed and one description
file. -/
def sample_host : host :=
  { glob := fun pattern =>
      if pattern = "/lib/modules/*/build" then (0, ["/lib/modules/5.14.0-x/build"])
      else (0, ["/usr/share/systemtap/httpd/docker/Fedora38.json"]),
    kernel_release_from_build_tree := fun _ => "5.14.0-x",
    get_distro_info := ["Fedora38", "38"],
    uname_machine := "x86_64",
    find_executable := fun _ => some "/usr/bin/docker" }

/-- An installation under /usr. -/
def sample_config : config :=
  { BINDIR := "/usr/bin", PKGLIBDIR := "/usr/libexec/systemtap",
    PKGDATADIR := "/usr/share/systemtap", PYTHON_BASENAME := "python3" }

/-- The process state before the first call of `get_backends`. -/
def initial_state : process_state :=
  { heap := [], saved_backends := [], atexit_registered := 0, deleted := [] }

/-- A process runner in which stap exits with 3 and every other command
with 0, mkdir succeeds and the generated uuid is fresh-uuid. -/
def sample_world : world :=
  { execute_and_capture := fun _ inv => if inv.cmd.head? = some "/usr/bin/stap" then 3 else 0,
    mkdir := fun _ _ _ => 0,
    get_uuid := fun _ => "fresh-uuid",
    get_json_string := fun _ => "{}" }

/-- The sample request with a client.zip among its files. -/
def sample_zip_request : client_request_data :=
  { sample_request with files := ["script.stp", "client.zip"] }

/-- A process runner in which stap exits with 3, atomic unmount with 5,
docker rmi with 7 and every other command with 0. -/
def sample_world_cleanup_fails : world :=
  { sample_world with
    execute_and_capture := fun _ inv =>
      if inv.cmd.head? = some "/usr/bin/stap" then 3
      else if inv.cmd.take 2 = ["atomic", "unmount"] then 5
      else if inv.cmd.take 2 = ["docker", "rmi"] then 7
      else 0 }

/-- A process runner in which the image-build helper exits with 2. -/
def sample_world_helper_fails : world :=
  { sample_world with
    execute_and_capture := fun _ inv => if inv.cmd.head? = some "python3" then 2 else 0 }

/-- A process runner in which docker build exits with 4. -/
def sample_world_docker_build_fails : world :=
  { sample_world with
    execute_and_capture := fun _ inv =>
      if inv.cmd.take 2 = ["docker", "build"] then 4 else 0 }

/-- A process runner in which atomic mount exits with 6. -/
def sample_world_mount_fails : world :=
  { sample_world with
    execute_and_capture := fun _ inv =>
      if inv.cmd.take 2 = ["atomic", "mount"] then 6 else 0 }

/-- The container backend constructed on the sample host. -/
def sample_docker : docker_backend :=
  docker_backend.ctor sample_config sample_host

/-! # Properties -/

/-! ## Registry lemmas -/

theorem get_backends_first (cfg : config) (h : host) (st : process_state)
    (out : List Nat) (hs : st.saved_backends = []) :
    get_backends cfg h st out =
      ({ heap := st.heap ++ [some (.local_backend (local_backend.ctor h)),
                             some (.docker_backend (docker_backend.ctor cfg h)),
                             some .default_backend],
         saved_backends := [st.heap.length, st.heap.length + 1, st.heap.length + 2],
         atexit_registered := st.atexit_registered + 1,
         deleted := st.deleted },
       [st.heap.length, st.heap.length + 1, st.heap.length + 2]) := by
  simp [get_backends, process_state.new, hs, Nat.add_assoc]

theorem get_backends_cached (cfg : config) (h : host) (st : process_state)
    (out : List Nat) (hs : st.saved_backends ≠ []) :
    get_backends cfg h st out =
      ({ st with atexit_registered := st.atexit_registered + 1 }, st.saved_backends) := by
  simp [get_backends, hs]

theorem deref_fresh (hp : List (Option backend_base)) (a b c : backend_base)
    (sb : List Nat) (n : Nat) (del : List Nat) :
    (process_state.mk (hp ++ [some a, some b, some c]) sb n del).deref hp.length = some a
    ∧ (process_state.mk (hp ++ [some a, some b, some c]) sb n del).deref (hp.length + 1)
        = some b
    ∧ (process_state.mk (hp ++ [some a, some b, some c]) sb n del).deref (hp.length + 2)
        = some c := by
  simp [process_state.deref, List.getElem_append_right]

theorem deref_atexit (st : process_state) (n p : Nat) :
    process_state.deref { st with atexit_registered := n } p = st.deref p := rfl

theorem StdMap.count_eq_one_iff (m : StdMap) (k : String) :
    m.count k = 1 ↔ ∃ v, (k, v) ∈ m := by
  unfold StdMap.count
  by_cases hk : m.any (fun e => e.1 == k) = true
  · simp only [hk, if_true, true_iff]
    obtain ⟨e, he, hek⟩ := List.any_eq_true.mp hk
    refine ⟨e.2, ?_⟩
    have : e.1 = k := by simpa using hek
    rw [← this]
    exact he
  · simp only [hk, if_false]
    constructor
    · intro h0
      exact absurd h0 (by decide)
    · rintro ⟨v, hv⟩
      exact absurd (List.any_eq_true.mpr ⟨(k, v), hv, by simp⟩) hk

theorem first_capable_of_three (s : process_state) (p0 p1 p2 : Nat)
    (l : local_backend) (d : docker_backend) (req : client_request_data)
    (h0 : s.deref p0 = some (.local_backend l))
    (h1 : s.deref p1 = some (.docker_backend d))
    (h2 : s.deref p2 = some .default_backend) :
    ∃ p, [p0, p1, p2].find? (fun q => s.can_generate_module q req) = some p
      ∧ s.deref p
          = some (if l.can_generate_module req = true then backend_base.local_backend l
                  else if d.can_generate_module req = true then backend_base.docker_backend d
                  else backend_base.default_backend) := by
  by_cases hl : l.can_generate_module req = true
  · refine ⟨p0, ?_, ?_⟩
    · simp [List.find?, process_state.can_generate_module, h0,
        backend_base.can_generate_module, hl]
    · simp [h0, hl]
  · by_cases hd : d.can_generate_module req = true
    · refine ⟨p1, ?_, ?_⟩
      · simp [List.find?, process_state.can_generate_module, h0, h1,
          backend_base.can_generate_module, hl, hd]
      · simp [h1, hl, hd]
    · refine ⟨p2, ?_, ?_⟩
      · simp [List.find?, process_state.can_generate_module, h0, h1, h2,
          backend_base.can_generate_module, hl, hd,
          default_backend.can_generate_module]
      · simp [h2, hl, hd]

theorem get_backends_repeatedly_cached (cfg : config) (later : List (host × List Nat)) :
    ∀ s : process_state, s.saved_backends ≠ [] →
      (get_backends_repeatedly cfg s later).heap = s.heap
      ∧ (get_backends_repeatedly cfg s later).saved_backends = s.saved_backends
      ∧ (get_backends_repeatedly cfg s later).deleted = s.deleted := by
  induction later with
  | nil => intro s _; exact ⟨rfl, rfl, rfl⟩
  | cons c cs ih =>
    intro s hs
    simp only [get_backends_repeatedly]
    rw [get_backends_cached cfg c.1 s c.2 hs]
    exact ih { s with atexit_registered := s.atexit_registered + 1 } hs

/-! ## Container pipeline lemmas -/

theorem client_zip_loop_not_mem (w : world) (crd : client_request_data)
    (tmp_dir dout derr : String) (files : List String) (s : build_state)
    (hf : "client.zip" ∉ files) :
    docker_backend.client_zip_loop w crd tmp_dir dout derr files s = (s, false) := by
  induction files with
  | nil => rfl
  | cons i rest ih =>
    have hi : i ≠ "client.zip" := fun h => hf (h ▸ List.mem_cons_self _ _)
    have hr : "client.zip" ∉ rest := fun h => hf (List.mem_cons_of_mem _ h)
    simp only [docker_backend.client_zip_loop, hi, if_false]
    exact ih hr

theorem client_zip_loop_mem (w : world) (crd : client_request_data)
    (tmp_dir dout derr : String) (files : List String) (s : build_state)
    (hf : "client.zip" ∈ files) :
    docker_backend.client_zip_loop w crd tmp_dir dout derr files s
      = docker_backend.client_zip_loop w crd tmp_dir dout derr ["client.zip"] s := by
  induction files with
  | nil => exact absurd hf (List.not_mem_nil _)
  | cons i rest ih =>
    by_cases hi : i = "client.zip"
    · subst hi
      simp only [docker_backend.client_zip_loop, if_true]
    · have hr : "client.zip" ∈ rest := by
        rcases List.mem_cons.mp hf with h | h
        · exact absurd h.symm hi
        · exact h
      rw [← ih hr]
      simp only [docker_backend.client_zip_loop, hi, if_false]

theorem build_image_state (cfg : config) (w : world) (self : docker_backend)
    (crd : client_request_data) (tmp_dir uuid stdout_path stderr_path : String) :
    ∃ rc1, (docker_backend.build_image cfg w self crd tmp_dir uuid stdout_path stderr_path).2
      = { rc := rc1,
          trace := [build_data_event w crd tmp_dir,
            build_image_event cfg self crd tmp_dir uuid stdout_path stderr_path rc1],
          stap_image_uuid := uuid, images_to_remove := [], containers_to_remove := [] } :=
  ⟨_, rfl⟩

theorem build_client_files_state (w : world) (crd : client_request_data)
    (tmp_dir stdout_path stderr_path : String) (s : build_state) :
    ∃ u rc2, docker_backend.build_client_files w crd tmp_dir
        (docker_stdout_path crd tmp_dir stdout_path)
        (docker_stderr_path crd tmp_dir stderr_path) s
      = { rc := rc2,
          trace := s.trace ++ [docker_file_event crd tmp_dir s.stap_image_uuid,
            event.get_uuid u,
            docker_build_event crd tmp_dir stdout_path stderr_path u rc2],
          stap_image_uuid := u, images_to_remove := s.images_to_remove,
          containers_to_remove := s.containers_to_remove } := by
  apply Exists.intro
  apply Exists.intro
  simp only [docker_backend.build_client_files, run_command, docker_file_event,
    docker_build_event, List.append_assoc, List.singleton_append]
  rfl

theorem removal_state (w : world) (crd : client_request_data)
    (tmp_dir stdout_path stderr_path : String) (s : build_state)
    (hc : s.containers_to_remove = []) :
    ∃ R, removal_shape crd tmp_dir stdout_path stderr_path s.images_to_remove R
      ∧ (docker_backend.remove_images w crd (docker_stdout_path crd tmp_dir stdout_path)
          (docker_stderr_path crd tmp_dir stderr_path)
          (docker_backend.remove_containers w crd (docker_stdout_path crd tmp_dir stdout_path)
            (docker_stderr_path crd tmp_dir stderr_path) s)).trace = s.trace ++ R := by
  have h1 : docker_backend.remove_containers w crd (docker_stdout_path crd tmp_dir stdout_path)
      (docker_stderr_path crd tmp_dir stderr_path) s = s := by
    simp [docker_backend.remove_containers, hc]
  rw [h1]
  by_cases hi : s.images_to_remove = []
  · refine ⟨[], Or.inl ⟨hi, rfl⟩, ?_⟩
    simp [docker_backend.remove_images, hi]
  · refine ⟨[rmi_event crd tmp_dir stdout_path stderr_path s.images_to_remove
        (w.execute_and_capture s.trace (command crd (["docker", "rmi"] ++ s.images_to_remove)
          (docker_stdout_path crd tmp_dir stdout_path)
          (docker_stderr_path crd tmp_dir stderr_path)))], Or.inr ⟨hi, _, rfl⟩, ?_⟩
    simp [docker_backend.remove_images, hi, run_command, rmi_event]

theorem mount_run_cleanup_shape (cfg : config) (w : world) (crd : client_request_data)
    (argv : List String) (tmp_dir stdout_path stderr_path : String) (s : build_state)
    (hc : s.containers_to_remove = []) :
    tail_shape cfg crd argv tmp_dir stdout_path stderr_path s.trace s.stap_image_uuid
      s.images_to_remove
      (docker_backend.mount_run_cleanup cfg w crd argv tmp_dir stdout_path stderr_path s) := by
  unfold docker_backend.mount_run_cleanup
  simp only []
  -- mkdir
  obtain ⟨rcm, hk⟩ : ∃ rcm, docker_backend.mkdir_sysroot w tmp_dir s
      = { s with rc := rcm, trace := s.trace ++ [mkdir_event tmp_dir rcm] } := ⟨_, rfl⟩
  rw [hk]
  by_cases hrcm : rcm = 0
  · subst hrcm
    -- mount
    obtain ⟨mrc, hm⟩ : ∃ mrc, docker_backend.mount_image w crd tmp_dir
        (docker_stdout_path crd tmp_dir stdout_path) (docker_stderr_path crd tmp_dir stderr_path)
        { s with rc := 0, trace := s.trace ++ [mkdir_event tmp_dir 0] }
        = { s with rc := mrc, trace := s.trace ++ [mkdir_event tmp_dir 0,
              mount_event crd tmp_dir stdout_path stderr_path s.stap_image_uuid mrc] } := by
      apply Exists.intro
      simp only [docker_backend.mount_image, run_command, mount_event, if_true,
        List.append_assoc, List.singleton_append]
      rfl
    rw [hm]
    by_cases hmrc : mrc = 0
    · subst hmrc
      by_cases hargv : argv = []
      · subst hargv
        obtain ⟨R, hR, _⟩ := removal_state w crd tmp_dir stdout_path stderr_path s hc
        refine ⟨R, hR, Or.inr (Or.inr (Or.inl ⟨rfl, ?_⟩))⟩
        simp [docker_backend.run_stap]
      · -- run
        obtain ⟨src, hr⟩ : ∃ src, docker_backend.run_stap cfg w crd argv tmp_dir stdout_path
            stderr_path { s with rc := 0, trace := s.trace ++ [mkdir_event tmp_dir 0,
              mount_event crd tmp_dir stdout_path stderr_path s.stap_image_uuid 0] }
            = some (src, { s with rc := 0, trace := s.trace ++ [mkdir_event tmp_dir 0,
                mount_event crd tmp_dir stdout_path stderr_path s.stap_image_uuid 0,
                stap_event cfg crd argv tmp_dir stdout_path stderr_path src] }) := by
          apply Exists.intro
          simp only [docker_backend.run_stap, run_command, stap_event, if_true, hargv,
            if_false, List.append_assoc, List.cons_append, List.nil_append]
          rfl
        rw [hr]
        simp only []
        -- unmount
        obtain ⟨urc, hu⟩ : ∃ urc, docker_backend.unmount_image w crd tmp_dir
            (docker_stdout_path crd tmp_dir stdout_path)
            (docker_stderr_path crd tmp_dir stderr_path)
            { s with rc := 0, trace := s.trace ++ [mkdir_event tmp_dir 0,
                mount_event crd tmp_dir stdout_path stderr_path s.stap_image_uuid 0,
                stap_event cfg crd argv tmp_dir stdout_path stderr_path src] }
            = { s with rc := urc, trace := s.trace ++ [mkdir_event tmp_dir 0,
                mount_event crd tmp_dir stdout_path stderr_path s.stap_image_uuid 0,
                stap_event cfg crd argv tmp_dir stdout_path stderr_path src,
                unmount_event crd tmp_dir stdout_path stderr_path urc] } := by
          apply Exists.intro
          simp only [docker_backend.unmount_image, run_command, unmount_event, if_true,
            List.append_assoc, List.cons_append, List.nil_append]
          rfl
        rw [hu]
        obtain ⟨R, hR, hRt⟩ := removal_state w crd tmp_dir stdout_path stderr_path
          { s with rc := urc, trace := s.trace ++ [mkdir_event tmp_dir 0,
                mount_event crd tmp_dir stdout_path stderr_path s.stap_image_uuid 0,
                stap_event cfg crd argv tmp_dir stdout_path stderr_path src,
                unmount_event crd tmp_dir stdout_path stderr_path urc] } hc
        refine ⟨R, hR, Or.inr (Or.inr (Or.inr ⟨hargv, src, urc, ?_⟩))⟩
        rw [hRt]
    · -- mount failed
      have hr : docker_backend.run_stap cfg w crd argv tmp_dir stdout_path
          stderr_path { s with rc := mrc, trace := s.trace ++ [mkdir_event tmp_dir 0,
            mount_event crd tmp_dir stdout_path stderr_path s.stap_image_uuid mrc] }
          = some (mrc, { s with rc := mrc, trace := s.trace ++ [mkdir_event tmp_dir 0,
            mount_event crd tmp_dir stdout_path stderr_path s.stap_image_uuid mrc] }) := by
        simp [docker_backend.run_stap, hmrc]
      rw [hr]
      simp only []
      have hu : docker_backend.unmount_image w crd tmp_dir
          (docker_stdout_path crd tmp_dir stdout_path)
          (docker_stderr_path crd tmp_dir stderr_path)
          { s with rc := mrc, trace := s.trace ++ [mkdir_event tmp_dir 0,
            mount_event crd tmp_dir stdout_path stderr_path s.stap_image_uuid mrc] }
          = { s with rc := mrc, trace := s.trace ++ [mkdir_event tmp_dir 0,
            mount_event crd tmp_dir stdout_path stderr_path s.stap_image_uuid mrc] } := by
        simp [docker_backend.unmount_image, hmrc]
      rw [hu]
      obtain ⟨R, hR, hRt⟩ := removal_state w crd tmp_dir stdout_path stderr_path
        { s with rc := mrc, trace := s.trace ++ [mkdir_event tmp_dir 0,
            mount_event crd tmp_dir stdout_path stderr_path s.stap_image_uuid mrc] } hc
      refine ⟨R, hR, Or.inr (Or.inl ⟨mrc, hmrc, ?_⟩)⟩
      rw [hRt]
  · -- mkdir failed
    have hm : docker_backend.mount_image w crd tmp_dir
        (docker_stdout_path crd tmp_dir stdout_path) (docker_stderr_path crd tmp_dir stderr_path)
        { s with rc := rcm, trace := s.trace ++ [mkdir_event tmp_dir rcm] }
        = { s with rc := rcm, trace := s.trace ++ [mkdir_event tmp_dir rcm] } := by
      simp [docker_backend.mount_image, hrcm]
    rw [hm]
    have hr : docker_backend.run_stap cfg w crd argv tmp_dir stdout_path
        stderr_path { s with rc := rcm, trace := s.trace ++ [mkdir_event tmp_dir rcm] }
        = some (rcm, { s with rc := rcm, trace := s.trace ++ [mkdir_event tmp_dir rcm] }) := by
      simp [docker_backend.run_stap, hrcm]
    rw [hr]
    simp only []
    have hu : docker_backend.unmount_image w crd tmp_dir
        (docker_stdout_path crd tmp_dir stdout_path)
        (docker_stderr_path crd tmp_dir stderr_path)
        { s with rc := rcm, trace := s.trace ++ [mkdir_event tmp_dir rcm] }
        = { s with rc := rcm, trace := s.trace ++ [mkdir_event tmp_dir rcm] } := by
      simp [docker_backend.unmount_image, hrcm]
    rw [hu]
    obtain ⟨R, hR, hRt⟩ := removal_state w crd tmp_dir stdout_path stderr_path
      { s with rc := rcm, trace := s.trace ++ [mkdir_event tmp_dir rcm] } hc
    refine ⟨R, hR, Or.inl ⟨rcm, hrcm, ?_⟩⟩
    rw [hRt]

theorem split_run_unmount (pre : List event) (a b x y : event) (R : List event) :
    pre ++ [a, b, x, y] ++ R = (pre ++ [a, b]) ++ [x, y] ++ R := by
  simp

theorem generate_module_has_shape (cfg : config) (w : world) (self : docker_backend)
    (crd : client_request_data) (argv : List String)
    (tmp_dir uuid stdout_path stderr_path : String) :
    generate_module_shape cfg w self crd argv tmp_dir uuid stdout_path stderr_path
      (self.generate_module cfg w crd argv tmp_dir uuid stdout_path stderr_path).2 := by
  unfold docker_backend.generate_module
  simp only []
  obtain ⟨rc1, hb⟩ := build_image_state cfg w self crd tmp_dir uuid stdout_path stderr_path
  rw [hb]
  by_cases h1 : rc1 = 0
  · subst h1
    simp only [ne_eq, not_true_eq_false, if_false]
    by_cases hf : "client.zip" ∈ crd.files
    · rw [client_zip_loop_mem w crd tmp_dir _ _ crd.files _ hf]
      simp only [docker_backend.client_zip_loop, if_true]
      obtain ⟨u, rc2, hc⟩ := build_client_files_state w crd tmp_dir stdout_path stderr_path
        { rc := 0,
          trace := [build_data_event w crd tmp_dir,
            build_image_event cfg self crd tmp_dir uuid stdout_path stderr_path 0],
          stap_image_uuid := uuid, images_to_remove := [], containers_to_remove := [] }
      rw [hc]
      by_cases h2 : rc2 = 0
      · subst h2
        simp only [ne_eq, not_true_eq_false, if_false, Bool.false_eq_true]
        refine Or.inr (Or.inr (Or.inl ⟨hf, u, ?_⟩))
        exact mount_run_cleanup_shape cfg w crd argv tmp_dir stdout_path stderr_path
          { rc := 0,
            trace := [build_data_event w crd tmp_dir,
              build_image_event cfg self crd tmp_dir uuid stdout_path stderr_path 0,
              docker_file_event crd tmp_dir uuid, event.get_uuid u,
              docker_build_event crd tmp_dir stdout_path stderr_path u 0],
            stap_image_uuid := u, images_to_remove := [u], containers_to_remove := [] } rfl
      · simp only [ne_eq, h2, not_false_eq_true, if_true]
        exact Or.inr (Or.inl ⟨hf, u, rc2, h2, rfl⟩)
    · rw [client_zip_loop_not_mem w crd tmp_dir _ _ crd.files _ hf]
      simp only [Bool.false_eq_true, if_false]
      refine Or.inr (Or.inr (Or.inr ⟨hf, ?_⟩))
      exact mount_run_cleanup_shape cfg w crd argv tmp_dir stdout_path stderr_path
        { rc := 0,
          trace := [build_data_event w crd tmp_dir,
            build_image_event cfg self crd tmp_dir uuid stdout_path stderr_path 0],
          stap_image_uuid := uuid, images_to_remove := [], containers_to_remove := [] } rfl
  · simp only [ne_eq, h1, not_false_eq_true, if_true]
    exact Or.inl ⟨rc1, h1, rfl⟩

theorem StdMap.index_fst (m : StdMap) (k : String) :
    (m.index k).1 = (m.lookup k).getD "" := by
  unfold StdMap.index
  split <;> simp [*]

theorem StdMap.lookup_of_count (m : StdMap) (k : String) (h : m.count k = 1) :
    ∃ v, m.lookup k = some v ∧ (k, v) ∈ m := by
  induction m with
  | nil => simp [StdMap.count] at h
  | cons e rest ih =>
    obtain ⟨k2, v2⟩ := e
    by_cases hk : k = k2
    · subst hk
      exact ⟨v2, by simp [List.lookup], List.mem_cons_self _ _⟩
    · have hrest : StdMap.count rest k = 1 := by
        have hk2 : ¬ k2 = k := fun h2 => hk h2.symm
        simpa [StdMap.count, hk2] using h
      obtain ⟨v, hv, hmem⟩ := ih hrest
      refine ⟨v, ?_, List.mem_cons_of_mem _ hmem⟩
      have hb : (k == k2) = false := by simpa using hk
      simp [List.lookup, hb, hv]

theorem String.append_right_cancel (a b s : String) (h : a ++ s = b ++ s) : a = b := by
  have hd := congrArg String.data h
  simp only [String.data_append] at hd
  exact String.ext (List.append_cancel_right hd)

theorem generate_module_trace_head (cfg : config) (w : world) (self : docker_backend)
    (crd : client_request_data) (argv : List String)
    (tmp_dir uuid stdout_path stderr_path : String) :
    ∃ rc rest,
      (self.generate_module cfg w crd argv tmp_dir uuid stdout_path stderr_path).2.trace
        = build_data_event w crd tmp_dir
          :: build_image_event cfg self crd tmp_dir uuid stdout_path stderr_path rc :: rest := by
  have hs := generate_module_has_shape cfg w self crd argv tmp_dir uuid stdout_path stderr_path
  generalize (self.generate_module cfg w crd argv tmp_dir uuid stdout_path stderr_path).2 = o
    at hs ⊢
  rcases hs with ⟨rc1, _, rfl⟩ | ⟨_, u, rc2, _, rfl⟩ | ⟨_, u, R, hR, hs⟩ | ⟨_, R, hR, hs⟩
  · exact ⟨rc1, [], rfl⟩
  · exact ⟨0, _, rfl⟩
  · rcases hs with ⟨rcm, _, rfl⟩ | ⟨mrc, _, rfl⟩ | ⟨_, rfl⟩ | ⟨_, src, urc, rfl⟩ <;>
      exact ⟨0, _, rfl⟩
  · rcases hs with ⟨rcm, _, rfl⟩ | ⟨mrc, _, rfl⟩ | ⟨_, rfl⟩ | ⟨_, src, urc, rfl⟩ <;>
      exact ⟨0, _, rfl⟩

theorem generate_module_commands (cfg : config) (w : world) (self : docker_backend)
    (crd : client_request_data) (argv : List String)
    (tmp_dir uuid stdout_path stderr_path : String) :
    (∀ inv rc, event.exec .build_image inv rc
        ∈ (self.generate_module cfg w crd argv tmp_dir uuid stdout_path stderr_path).2.trace →
      inv.cmd = [cfg.PYTHON_BASENAME, self.docker_build_container_script_path,
        "--distro-file", (self.data_files.lookup crd.distro_name).getD "",
        "--build-file", tmp_dir ++ "/build_data.json",
        "--data-dir", self.datadir, uuid])
    ∧ (∀ inv rc, event.exec .atomic_mount inv rc
        ∈ (self.generate_module cfg w crd argv tmp_dir uuid stdout_path stderr_path).2.trace →
      ∃ image, inv.cmd = ["atomic", "mount", image, tmp_dir ++ "/sysroot"]) := by
  have hs := generate_module_has_shape cfg w self crd argv tmp_dir uuid stdout_path stderr_path
  generalize (self.generate_module cfg w crd argv tmp_dir uuid stdout_path stderr_path).2 = o
    at hs ⊢
  rcases hs with ⟨rc1, _, rfl⟩ | ⟨_, u, rc2, _, rfl⟩ | ⟨_, u, R, hR, hs⟩ | ⟨_, R, hR, hs⟩
  · simp [build_data_event, build_image_event, command, StdMap.index_fst]
  · simp [build_data_event, build_image_event, docker_file_event, docker_build_event,
      command, StdMap.index_fst]
  · rcases hR with ⟨_, rfl⟩ | ⟨_, rrc, rfl⟩ <;>
      rcases hs with ⟨rcm, _, rfl⟩ | ⟨mrc, _, rfl⟩ | ⟨_, rfl⟩ | ⟨_, src, urc, rfl⟩ <;>
      simp [build_data_event, build_image_event, docker_file_event, docker_build_event,
        mkdir_event, mount_event, stap_event, unmount_event, rmi_event, command,
        StdMap.index_fst]
  · rcases hR with ⟨_, rfl⟩ | ⟨_, rrc, rfl⟩ <;>
      rcases hs with ⟨rcm, _, rfl⟩ | ⟨mrc, _, rfl⟩ | ⟨_, rfl⟩ | ⟨_, src, urc, rfl⟩ <;>
      simp [build_data_event, build_image_event, docker_file_event, docker_build_event,
        mkdir_event, mount_event, stap_event, unmount_event, rmi_event, command,
        StdMap.index_fst]

/-! ## Lower case -/

theorem char_toLower_idem (c : Char) : c.toLower.toLower = c.toLower := by
  by_cases h : c.toNat ≥ 65 ∧ c.toNat ≤ 90
  · have h1 : c.toLower = Char.ofNat (c.toNat + 32) := by
      simp only [Char.toLower, h, and_self, if_true]
    have h2 : (Char.ofNat (c.toNat + 32)).toNat = c.toNat + 32 := by
      obtain ⟨ha, hb⟩ := h
      generalize c.toNat = n at ha hb
      interval_cases n <;> rfl
    rw [h1]
    have h3 : ¬ ((Char.ofNat (c.toNat + 32)).toNat ≥ 65
        ∧ (Char.ofNat (c.toNat + 32)).toNat ≤ 90) := by
      rw [h2]
      omega
    simp only [Char.toLower, h3, if_false]
  · have h1 : c.toLower = c := by
      simp only [Char.toLower, h, if_false]
    rw [h1, h1]

theorem transform_tolower_idem (s : String) :
    transform_tolower (transform_tolower s) = transform_tolower s := by
  unfold transform_tolower
  congr 1
  simp only [List.map_map]
  apply List.map_congr_left
  intro c _
  exact char_toLower_idem c

theorem local_ctor_distro_lower (h : host) :
    transform_tolower (local_backend.ctor h).distro_name = (local_backend.ctor h).distro_name := by
  unfold local_backend.ctor
  simp only []
  split
  · rfl
  · split
    · rfl
    · exact transform_tolower_idem _

theorem insert_keys_lower (m : StdMap) (k v : String)
    (hm : ∀ e ∈ m, transform_tolower e.1 = e.1) (hk : transform_tolower k = k) :
    ∀ e ∈ m.insert k v, transform_tolower e.1 = e.1 := by
  unfold StdMap.insert
  split
  · exact hm
  · intro e he
    rcases List.mem_append.mp he with h1 | h1
    · exact hm e h1
    · have : e = (k, v) := by simpa using h1
      rw [this]
      exact hk

theorem add_data_file_keys_lower (m : StdMap) (path : String)
    (hm : ∀ e ∈ m, transform_tolower e.1 = e.1) :
    ∀ e ∈ docker_backend.add_data_file m path, transform_tolower e.1 = e.1 := by
  unfold docker_backend.add_data_file
  split
  · exact hm
  · simp only []
    split
    · exact hm
    · exact insert_keys_lower m _ _ hm (transform_tolower_idem _)

theorem foldl_add_data_file_keys_lower (paths : List String) :
    ∀ m : StdMap, (∀ e ∈ m, transform_tolower e.1 = e.1) →
      ∀ e ∈ paths.foldl docker_backend.add_data_file m, transform_tolower e.1 = e.1 := by
  induction paths with
  | nil => intro m hm; exact hm
  | cons p ps ih =>
    intro m hm
    exact ih _ (add_data_file_keys_lower m p hm)

theorem docker_ctor_keys_lower (cfg : config) (h : host) :
    ∀ e ∈ (docker_backend.ctor cfg h).data_files, transform_tolower e.1 = e.1 := by
  unfold docker_backend.ctor
  simp only []
  split
  · intro e he
    exact absurd he (List.not_mem_nil _)
  · exact foldl_add_data_file_keys_lower _ [] (fun e he => absurd he (List.not_mem_nil _))

/-! ## Teardown lemmas -/

theorem deref_delete (st : process_state) (p q : Nat) :
    (st.delete p).deref q = if q = p then none else st.deref q := by
  unfold process_state.delete process_state.deref
  simp only [List.get?_eq_getElem?, List.getElem?_set]
  by_cases hqp : q = p
  · subst hqp
    simp only [if_true]
    split <;> rfl
  · have hpq : ¬ p = q := fun h => hqp h.symm
    simp only [hpq, hqp, if_false]

theorem foldl_delete (ps : List Nat) :
    ∀ st : process_state,
      (ps.foldl (fun s it => s.delete it) st).deleted = st.deleted ++ ps
      ∧ (ps.foldl (fun s it => s.delete it) st).saved_backends = st.saved_backends
      ∧ (ps.foldl (fun s it => s.delete it) st).atexit_registered = st.atexit_registered
      ∧ (ps.foldl (fun s it => s.delete it) st).heap.length = st.heap.length
      ∧ (∀ q, q ∈ ps → (ps.foldl (fun s it => s.delete it) st).deref q = none)
      ∧ (∀ q, q ∉ ps → (ps.foldl (fun s it => s.delete it) st).deref q = st.deref q) := by
  induction ps with
  | nil =>
    intro st
    refine ⟨by simp, rfl, rfl, rfl, ?_, fun q _ => rfl⟩
    intro q hq
    exact absurd hq (List.not_mem_nil _)
  | cons p ps ih =>
    intro st
    obtain ⟨h1, h2, h3, h4, h5, h6⟩ := ih (st.delete p)
    simp only [List.foldl_cons]
    refine ⟨?_, ?_, ?_, ?_, ?_, ?_⟩
    · rw [h1]
      simp [process_state.delete]
    · rw [h2]
      rfl
    · rw [h3]
      rfl
    · rw [h4]
      simp [process_state.delete]
    · intro q hq
      by_cases hqs : q ∈ ps
      · exact h5 q hqs
      · have hqp : q = p := by
          rcases List.mem_cons.mp hq with h | h
          · exact h
          · exact absurd h hqs
        rw [h6 q hqs, deref_delete, if_pos hqp]
    · intro q hq
      have hqp : q ≠ p := fun h => hq (h ▸ List.mem_cons_self _ _)
      have hqs : q ∉ ps := fun h => hq (List.mem_cons_of_mem _ h)
      rw [h6 q hqs, deref_delete, if_neg hqp]

theorem backends_atexit_handler_empty (st : process_state) (hs : st.saved_backends = []) :
    backends_atexit_handler st = st := by
  simp [backends_atexit_handler, hs]

theorem backends_atexit_handler_saved (st : process_state) :
    (backends_atexit_handler st).saved_backends = [] := by
  unfold backends_atexit_handler
  split
  · rfl
  · rename_i hh
    simpa using hh

/-! ## Header line lemmas -/

theorem getElem?_ne_of_clean (l : List Char) (x : Char) (hx : ∀ b ∈ l, b ≠ x) (i : Nat) :
    l[i]? ≠ some x := by
  intro h
  exact hx x (List.getElem?_mem h) rfl

theorem read_header_condition_clean (l : List Char)
    (hclean : ∀ b ∈ l, b ≠ '\r' ∧ b ≠ '\n') (hlen : l.length < 256) :
    read_header_condition l = true := by
  have h1 := getElem?_ne_of_clean l '\r' (fun b hb => (hclean b hb).1) (l.length - 2)
  have h2 := getElem?_ne_of_clean l '\n' (fun b hb => (hclean b hb).2) (l.length - 1)
  simp [read_header_condition, MAX_HEADER_LINELENGTH, hlen, h1, h2]

theorem read_header_condition_cr (l : List Char)
    (hclean : ∀ b ∈ l, b ≠ '\r' ∧ b ≠ '\n') (hlen : l.length + 1 < 256) :
    read_header_condition (l ++ ['\r']) = true := by
  by_cases h0 : l.length = 0
  · have : l = [] := List.length_eq_zero.mp h0
    subst this
    rfl
  · have h1 : (l ++ ['\r'])[l.length - 1]? ≠ some '\r' := by
      rw [List.getElem?_append_left (by omega)]
      exact getElem?_ne_of_clean l '\r' (fun b hb => (hclean b hb).1) _
    simp only [read_header_condition, MAX_HEADER_LINELENGTH]
    simp [hlen, h1]

theorem read_header_condition_crlf (l : List Char) :
    read_header_condition (l ++ ['\r', '\n']) = false := by
  simp only [read_header_condition]
  simp [List.getElem_append_right]

theorem read_header_loop_done (fuel : Nat) (line input : List Char)
    (h : read_header_condition line = false) :
    read_header_loop fuel line input = .ok (line, input) := by
  cases fuel <;> simp [read_header_loop, h]

theorem read_header_loop_line (content : List Char) :
    ∀ (fuel : Nat) (line rest : List Char),
      (∀ b ∈ line, b ≠ '\r' ∧ b ≠ '\n') → (∀ b ∈ content, b ≠ '\r' ∧ b ≠ '\n') →
      line.length + content.length + 2 < 256 → content.length + 2 ≤ fuel →
      read_header_loop fuel line (content ++ '\r' :: '\n' :: rest)
        = .ok (line ++ content ++ ['\r', '\n'], rest) := by
  induction content with
  | nil =>
    intro fuel line rest hline _ hlen hfuel
    obtain ⟨f, rfl⟩ : ∃ f, fuel = f + 2 := ⟨fuel - 2, by simp at hfuel; omega⟩
    have c1 := read_header_condition_clean line hline (by simp at hlen; omega)
    have c2 := read_header_condition_cr line hline (by simp at hlen; omega)
    have c3 := read_header_condition_crlf line
    simp only [List.nil_append, read_header_loop, c1, c2, if_true, List.append_nil]
    rw [List.append_assoc]
    exact read_header_loop_done f _ rest c3
  | cons b bs ih =>
    intro fuel line rest hline hcontent hlen hfuel
    obtain ⟨f, rfl⟩ : ∃ f, fuel = f + 1 := ⟨fuel - 1, by simp at hfuel; omega⟩
    have c1 := read_header_condition_clean line hline (by simp at hlen; omega)
    simp only [List.cons_append, read_header_loop, c1, if_true]
    have := ih f (line ++ [b]) rest
      (by
        intro x hx
        rcases List.mem_append.mp hx with h | h
        · exact hline x h
        · have : x = b := by simpa using h
          rw [this]
          exact hcontent b (List.mem_cons_self _ _))
      (fun x hx => hcontent x (List.mem_cons_of_mem _ hx))
      (by simp at hlen ⊢; omega) (by simp at hfuel ⊢; omega)
    rw [this]
    simp

/-! ## Print flush lemmas -/

theorem stp_print_flush_loop_all (sizeof_stp_entry : Nat)
    (reserve_ok : transport → Nat → Bool) (hok : ∀ t n, reserve_ok t n = true)
    (hmax : 0 < MAX_RESERVE_SIZE sizeof_stp_entry) (fuel : Nat) :
    ∀ (len : Nat) (bufp : List Nat) (tr : transport),
      len ≤ fuel → len ≤ bufp.length →
      ∃ entries : List (List Nat),
        stp_print_flush_loop sizeof_stp_entry reserve_ok fuel len bufp tr
          = some { tr with reserved := tr.reserved ++ entries.map List.length,
                           committed := tr.committed ++ entries }
        ∧ entries.length
            = (len + MAX_RESERVE_SIZE sizeof_stp_entry - 1) / MAX_RESERVE_SIZE sizeof_stp_entry
        ∧ (∀ e ∈ entries, 1 ≤ e.length ∧ e.length ≤ MAX_RESERVE_SIZE sizeof_stp_entry)
        ∧ (entries.map List.length).sum = len
        ∧ entries.flatten = bufp.take len := by
  generalize hM : MAX_RESERVE_SIZE sizeof_stp_entry = M at hmax
  induction fuel with
  | zero =>
    intro len bufp tr hlen _
    have h0 : len = 0 := by omega
    subst h0
    refine ⟨[], ?_, ?_, ?_, ?_, ?_⟩
    · simp [stp_print_flush_loop]
    · rw [List.length_nil, Nat.div_eq_of_lt (by omega)]
    · intro e he
      exact absurd he (List.not_mem_nil _)
    · rfl
    · simp
  | succ fuel ih =>
    intro len bufp tr hlen hbuf
    by_cases h0 : len = 0
    · subst h0
      refine ⟨[], ?_, ?_, ?_, ?_, ?_⟩
      · simp [stp_print_flush_loop]
      · rw [List.length_nil, Nat.div_eq_of_lt (by omega)]
      · intro e he
        exact absurd he (List.not_mem_nil _)
      · rfl
      · simp
    · have hpos : len > 0 := Nat.pos_of_ne_zero h0
      by_cases hbig : len > M
      · obtain ⟨entries, h1, h2, h3, h4, h5⟩ := ih (len - M) (bufp.drop M)
          { tr with reserved := tr.reserved ++ [M], committed := tr.committed ++ [bufp.take M] }
          (by omega) (by simp; omega)
        refine ⟨bufp.take M :: entries, ?_, ?_, ?_, ?_, ?_⟩
        · simp only [stp_print_flush_loop, hpos, hM, hbig, if_true, hok]
          rw [h1]
          have hl : (bufp.take M).length = M := by simp; omega
          simp [hl]
        · simp only [List.length_cons, h2]
          have : len + M - 1 = (len - M + M - 1) + M := by omega
          rw [this, Nat.add_div_right _ hmax]
        · intro e he
          rcases List.mem_cons.mp he with h | h
          · subst h
            have hl : (bufp.take M).length = M := by simp; omega
            omega
          · exact h3 e h
        · have hl : (bufp.take M).length = M := by simp; omega
          simp only [List.map_cons, List.sum_cons, h4, hl]
          omega
        · simp only [List.flatten_cons, h5]
          have : len = M + (len - M) := by omega
          conv_rhs => rw [this, List.take_add]
      · have hsmall : ¬ len > M := hbig
        refine ⟨[bufp.take len], ?_, ?_, ?_, ?_, ?_⟩
        · simp only [stp_print_flush_loop, hpos, hM, hsmall, if_true, if_false, hok]
          have hl : (bufp.take len).length = len := by simp; omega
          cases fuel <;> simp [stp_print_flush_loop, hl]
        · simp only [List.length_singleton]
          symm
          apply Nat.div_eq_of_lt_le
          · omega
          · omega
        · intro e he
          have : e = bufp.take len := by simpa using he
          subst this
          have hl : (bufp.take len).length = len := by simp; omega
          omega
        · have hl : (bufp.take len).length = len := by simp; omega
          simp [hl]
        · simp

/-! ## The claims -/

/-- C1: the first backend, in the list returned by `get_backends`, whose
`can_generate_module` accepts the request always exists: it is the local
backend when that one accepts, else the container backend when that one
accepts, else the default backend, which accepts every request. The list is
either built by this call (capability states probed from the host) or the
cached one (any capability states `l`, `d`). -/
theorem get_backends_first_capable (cfg : config) (h : host) (st : process_state)
    (out : List Nat) (req : client_request_data) (l : local_backend) (d : docker_backend)
    (hst : (st.saved_backends = [] ∧ l = local_backend.ctor h ∧ d = docker_backend.ctor cfg h)
      ∨ st.saved_backends.map st.deref
          = [some (.local_backend l), some (.docker_backend d), some .default_backend]) :
    (∃ p, (get_backends cfg h st out).2.find?
            (fun q => (get_backends cfg h st out).1.can_generate_module q req) = some p
        ∧ (get_backends cfg h st out).1.deref p
            = some (if l.can_generate_module req = true then backend_base.local_backend l
                    else if d.can_generate_module req = true then backend_base.docker_backend d
                    else backend_base.default_backend))
    ∧ default_backend.can_generate_module req = true := by
  refine ⟨?_, rfl⟩
  rcases hst with ⟨hs, rfl, rfl⟩ | hs
  · rw [get_backends_first cfg h st out hs]
    obtain ⟨h0, h1, h2⟩ := deref_fresh st.heap
      (.local_backend (local_backend.ctor h))
      (.docker_backend (docker_backend.ctor cfg h)) .default_backend
      [st.heap.length, st.heap.length + 1, st.heap.length + 2]
      (st.atexit_registered + 1) st.deleted
    exact first_capable_of_three _ _ _ _ _ _ req h0 h1 h2
  · have hne : st.saved_backends ≠ [] := by
      intro h0
      simp [h0] at hs
    rw [get_backends_cached cfg h st out hne]
    obtain ⟨p0, p1, p2, hsb⟩ : ∃ p0 p1 p2, st.saved_backends = [p0, p1, p2] := by
      have hlen := congrArg List.length hs
      simp only [List.length_map, List.length_cons, List.length_nil] at hlen
      match hsv : st.saved_backends, hlen with
      | [a, b, c], _ => exact ⟨a, b, c, rfl⟩
    rw [hsb] at hs
    simp only [List.map_cons, List.map_nil, List.cons.injEq, and_true] at hs
    obtain ⟨h0, h1, h2⟩ := hs
    show ∃ p, st.saved_backends.find? _ = some p ∧ _
    rw [hsb]
    exact first_capable_of_three
      { st with atexit_registered := st.atexit_registered + 1 } p0 p1 p2 l d req h0 h1 h2

/-- Exercises `get_backends_first_capable` on a host where both the local and
the container backend accept the request: the local backend is selected. -/
theorem get_backends_first_capable_witness :
    (local_backend.ctor sample_host).can_generate_module sample_request = true
    ∧ (docker_backend.ctor sample_config sample_host).can_generate_module sample_request = true
    ∧ ∃ p, (get_backends sample_config sample_host initial_state []).2.find?
            (fun q => (get_backends sample_config sample_host initial_state []).1.can_generate_module
              q sample_request) = some p
        ∧ (get_backends sample_config sample_host initial_state []).1.deref p
            = some (.local_backend (local_backend.ctor sample_host)) := by
  have hl : (local_backend.ctor sample_host).can_generate_module sample_request = true := by
    decide
  refine ⟨hl, by decide, ?_⟩
  obtain ⟨p, hp1, hp2⟩ := (get_backends_first_capable sample_config sample_host initial_state []
    sample_request _ _ (Or.inl ⟨rfl, rfl, rfl⟩)).1
  refine ⟨p, hp1, ?_⟩
  rw [hp2, if_pos hl]

/-- C2: a call of `get_backends` on an empty registry creates exactly three
objects, a local, a container and a default backend in this order, and
returns the pointers to them in this order, whatever the output vector held;
after any number of further calls, a call returns the same three pointers to
the same three objects and creates nothing. -/
theorem get_backends_three_cached (cfg : config) (h : host) (st : process_state)
    (out : List Nat) (hs : st.saved_backends = []) :
    (get_backends cfg h st out).2 = [st.heap.length, st.heap.length + 1, st.heap.length + 2]
    ∧ (get_backends cfg h st out).1.heap
        = st.heap ++ [some (.local_backend (local_backend.ctor h)),
                      some (.docker_backend (docker_backend.ctor cfg h)),
                      some .default_backend]
    ∧ (get_backends cfg h st out).2.map (get_backends cfg h st out).1.deref
        = [some (.local_backend (local_backend.ctor h)),
           some (.docker_backend (docker_backend.ctor cfg h)),
           some .default_backend]
    ∧ ∀ (later : List (host × List Nat)) (h2 : host) (out2 : List Nat),
        (get_backends cfg h2
            (get_backends_repeatedly cfg (get_backends cfg h st out).1 later) out2).2
          = (get_backends cfg h st out).2
        ∧ (get_backends cfg h2
            (get_backends_repeatedly cfg (get_backends cfg h st out).1 later) out2).1.heap
          = (get_backends cfg h st out).1.heap
        ∧ (get_backends cfg h2
            (get_backends_repeatedly cfg (get_backends cfg h st out).1 later) out2).2.map
            (get_backends cfg h2
              (get_backends_repeatedly cfg (get_backends cfg h st out).1 later) out2).1.deref
          = [some (.local_backend (local_backend.ctor h)),
             some (.docker_backend (docker_backend.ctor cfg h)),
             some .default_backend] := by
  obtain ⟨d0, d1, d2⟩ := deref_fresh st.heap
    (.local_backend (local_backend.ctor h))
    (.docker_backend (docker_backend.ctor cfg h)) .default_backend
    [st.heap.length, st.heap.length + 1, st.heap.length + 2]
    (st.atexit_registered + 1) st.deleted
  rw [get_backends_first cfg h st out hs]
  refine ⟨rfl, rfl, ?_, ?_⟩
  · simp only [List.map_cons, List.map_nil, d0, d1, d2]
  · intro later h2 out2
    obtain ⟨e1, e2, _⟩ := get_backends_repeatedly_cached cfg later
      (process_state.mk (st.heap ++ [some (.local_backend (local_backend.ctor h)),
          some (.docker_backend (docker_backend.ctor cfg h)), some .default_backend])
        [st.heap.length, st.heap.length + 1, st.heap.length + 2]
        (st.atexit_registered + 1) st.deleted) (by simp)
    rw [get_backends_cached cfg h2 _ out2 (by rw [e2]; simp)]
    refine ⟨e2, e1, ?_⟩
    simp only [e2, List.map_cons, List.map_nil, process_state.deref, e1] at d0 d1 d2 ⊢
    simp only [d0, d1, d2]

/-- Exercises `get_backends_three_cached` on the initial process state: the
second call, made with another output vector, returns the pointers 0, 1, 2
again and the heap still holds three objects. -/
theorem get_backends_three_cached_witness :
    (get_backends sample_config sample_host initial_state [7, 7]).2 = [0, 1, 2]
    ∧ (get_backends sample_config sample_host
        (get_backends sample_config sample_host initial_state [7, 7]).1 [5]).2 = [0, 1, 2]
    ∧ (get_backends sample_config sample_host
        (get_backends sample_config sample_host initial_state [7, 7]).1 [5]).1.heap.length = 3 := by
  obtain ⟨a, b, _, c⟩ :=
    get_backends_three_cached sample_config sample_host initial_state [7, 7] rfl
  obtain ⟨c1, c2, _⟩ := c [] sample_host [5]
  refine ⟨a, ?_, ?_⟩
  · exact c1.trans a
  · simp only [get_backends_repeatedly] at c2
    rw [c2, b]
    rfl

/-- C3: the local backend accepts a request exactly when the request's kernel
version is a key of `supported_kernels`, its architecture is the detected one
and its distribution name is the detected one; hence replacing one of the
three fields of an accepted request by a non-matching value gives a rejected
request, and a backend with no kernel (in particular one whose glob failed)
rejects every request. -/
theorem local_can_generate_module_iff (l : local_backend) (req : client_request_data) :
    (l.can_generate_module req = true ↔
      ((∃ path, (req.kver, path) ∈ l.supported_kernels)
        ∧ req.arch = l.arch ∧ req.distro_name = l.distro_name))
    ∧ (l.can_generate_module req = true →
        (∀ kver, (¬ ∃ path, (kver, path) ∈ l.supported_kernels) →
          l.can_generate_module { req with kver := kver } = false)
        ∧ (∀ arch, arch ≠ l.arch →
          l.can_generate_module { req with arch := arch } = false)
        ∧ (∀ distro_name, distro_name ≠ l.distro_name →
          l.can_generate_module { req with distro_name := distro_name } = false))
    ∧ (l.supported_kernels = [] → l.can_generate_module req = false)
    ∧ (∀ h : host, (h.glob "/lib/modules/*/build").1 ≠ 0 →
        (local_backend.ctor h).can_generate_module req = false) := by
  have key : ∀ (l : local_backend) (r : client_request_data),
      l.can_generate_module r = true ↔
        ((∃ path, (r.kver, path) ∈ l.supported_kernels)
          ∧ r.arch = l.arch ∧ r.distro_name = l.distro_name) := by
    intro l r
    unfold local_backend.can_generate_module
    constructor
    · intro hc
      split at hc
      · rename_i hh
        exact ⟨(StdMap.count_eq_one_iff _ _).mp hh.1, hh.2.1.symm, hh.2.2.symm⟩
      · exact absurd hc (by decide)
    · rintro ⟨h1, h2, h3⟩
      rw [if_pos ⟨(StdMap.count_eq_one_iff _ _).mpr h1, h2.symm, h3.symm⟩]
  have nokey : ∀ (l : local_backend) (r : client_request_data),
      ¬ ((∃ path, (r.kver, path) ∈ l.supported_kernels)
          ∧ r.arch = l.arch ∧ r.distro_name = l.distro_name) →
      l.can_generate_module r = false := by
    intro l r hn
    cases hc : l.can_generate_module r
    · rfl
    · exact absurd ((key l r).mp hc) hn
  refine ⟨key l req, ?_, ?_, ?_⟩
  · intro _
    refine ⟨?_, ?_, ?_⟩
    · intro kver hk
      exact nokey l _ (fun hh => hk hh.1)
    · intro arch ha
      exact nokey l _ (fun hh => ha hh.2.1)
    · intro dn hd
      exact nokey l _ (fun hh => hd hh.2.2)
  · intro he
    apply nokey
    rintro ⟨⟨path, hp⟩, _⟩
    rw [he] at hp
    exact absurd hp (List.not_mem_nil _)
  · intro h hg
    apply nokey
    rintro ⟨⟨path, hp⟩, _⟩
    simp [local_backend.ctor, hg] at hp

/-- Exercises `local_can_generate_module_iff`: the sample request is accepted
on the sample host, and is rejected once its kernel version, its architecture
or its distribution name is replaced. -/
theorem local_can_generate_module_iff_witness :
    (local_backend.ctor sample_host).can_generate_module sample_request = true
    ∧ (local_backend.ctor sample_host).can_generate_module
        { sample_request with kver := "6.1.0" } = false
    ∧ (local_backend.ctor sample_host).can_generate_module
        { sample_request with arch := "aarch64" } = false
    ∧ (local_backend.ctor sample_host).can_generate_module
        { sample_request with distro_name := "rhel9" } = false := by
  have hl : (local_backend.ctor sample_host).can_generate_module sample_request = true := by
    decide
  obtain ⟨a, b, c⟩ :=
    (local_can_generate_module_iff (local_backend.ctor sample_host) sample_request).2.1 hl
  exact ⟨hl, a "6.1.0" (fun hk => absurd ((StdMap.count_eq_one_iff _ _).mpr hk) (by decide)),
    b "aarch64" (by decide), c "rhel9" (by decide)⟩

/-- C4: for a request whose distribution name is in lower case, the container
backend accepts it exactly when `docker_path` is not empty, `data_files` has
an entry for the request's distribution name (equivalently, for its lower-cased
distribution name) and the request's architecture is the detected one; a
backend constructed on a host where the docker executable was not found
rejects every request. -/
theorem docker_can_generate_module_iff (d : docker_backend) (req : client_request_data)
    (hlow : transform_tolower req.distro_name = req.distro_name) :
    (d.can_generate_module req = true ↔
      (d.docker_path ≠ "" ∧ (∃ path, (req.distro_name, path) ∈ d.data_files)
        ∧ req.arch = d.arch))
    ∧ (d.can_generate_module req = true ↔
      (d.docker_path ≠ "" ∧ (∃ path, (transform_tolower req.distro_name, path) ∈ d.data_files)
        ∧ req.arch = d.arch))
    ∧ (∀ (cfg : config) (h : host),
        (h.find_executable "docker" = none ∨ h.find_executable "docker" = some "docker") →
        (docker_backend.ctor cfg h).can_generate_module req = false) := by
  have key : d.can_generate_module req = true ↔
      (d.docker_path ≠ "" ∧ (∃ path, (req.distro_name, path) ∈ d.data_files)
        ∧ req.arch = d.arch) := by
    unfold docker_backend.can_generate_module
    by_cases hp : d.docker_path = ""
    · simp [hp]
    · simp only [hp, if_false, ne_eq, not_false_eq_true, true_and]
      constructor
      · intro hc
        split at hc
        · rename_i hh
          exact ⟨(StdMap.count_eq_one_iff _ _).mp hh.1, hh.2.symm⟩
        · exact absurd hc (by decide)
      · rintro ⟨h1, h2⟩
        rw [if_pos ⟨(StdMap.count_eq_one_iff _ _).mpr h1, h2.symm⟩]
  refine ⟨key, ?_, ?_⟩
  · rw [hlow]
    exact key
  · intro cfg h hf
    have hp : (docker_backend.ctor cfg h).docker_path = "" := by
      unfold docker_backend.ctor
      rcases hf with hf | hf <;> simp only [hf] <;> split <;> simp
    simp [docker_backend.can_generate_module, hp]

/-- Exercises `docker_can_generate_module_iff` on the sample request, whose
distribution name fedora38 is in lower case. -/
theorem docker_can_generate_module_iff_witness :
    transform_tolower sample_request.distro_name = sample_request.distro_name
    ∧ (docker_backend.ctor sample_config sample_host).can_generate_module sample_request = true
    ∧ (docker_backend.ctor sample_config
        { sample_host with find_executable := fun _ => none }).can_generate_module
          sample_request = false := by
  have hlow : transform_tolower sample_request.distro_name = sample_request.distro_name := by
    decide
  have h := docker_can_generate_module_iff (docker_backend.ctor sample_config sample_host)
    sample_request hlow
  refine ⟨hlow, h.1.mpr ⟨by decide, (StdMap.count_eq_one_iff _ _).mp (by decide), by decide⟩, ?_⟩
  exact h.2.2 sample_config { sample_host with find_executable := fun _ => none } (Or.inl rfl)

/-- C5: the default backend returns 1 for every request, whatever argv,
tmp_dir and uuid are (they influence neither the status nor the files); when
both output paths can be opened and differ, the stdout file exists and is
empty afterwards and the stderr file holds exactly the diagnostic, which
spells out the request's kernel version, architecture and distribution
name. -/
theorem default_generate_module_diagnostic (crd : client_request_data)
    (argv : List String) (tmp_dir uuid stdout_path stderr_path : String) (fs : filesystem) :
    (default_backend.generate_module crd argv tmp_dir uuid stdout_path stderr_path fs).1 = 1
    ∧ (default_backend.generate_module crd argv tmp_dir uuid stdout_path stderr_path fs).1 ≠ 0
    ∧ (∀ (argv2 : List String) (tmp_dir2 uuid2 : String),
        default_backend.generate_module crd argv2 tmp_dir2 uuid2 stdout_path stderr_path fs
          = default_backend.generate_module crd argv tmp_dir uuid stdout_path stderr_path fs)
    ∧ (fs.can_open stdout_path = true → fs.can_open stderr_path = true →
        stdout_path ≠ stderr_path →
        (default_backend.generate_module crd argv tmp_dir uuid stdout_path stderr_path fs).2.read
            stdout_path = some ""
        ∧ (default_backend.generate_module crd argv tmp_dir uuid stdout_path stderr_path fs).2.read
            stderr_path
          = some ("Error: the server cannot create a module for kernel " ++ crd.kver
              ++ ", architecture " ++ crd.arch ++ ", distro " ++ crd.distro_name ++ "\n")
        ∧ ∃ text a b c d,
            (default_backend.generate_module crd argv tmp_dir uuid stdout_path stderr_path fs).2.read
              stderr_path = some text
            ∧ text = a ++ crd.kver ++ b ++ crd.arch ++ c ++ crd.distro_name ++ d) := by
  refine ⟨rfl, by simp [default_backend.generate_module], fun _ _ _ => rfl, ?_⟩
  intro ho he hne
  have hne2 : (stdout_path == stderr_path) = false := by
    simpa using hne
  have hread : (default_backend.generate_module crd argv tmp_dir uuid stdout_path stderr_path
      fs).2.read stderr_path
        = some ("Error: the server cannot create a module for kernel " ++ crd.kver
            ++ ", architecture " ++ crd.arch ++ ", distro " ++ crd.distro_name ++ "\n") := by
    simp [default_backend.generate_module, filesystem.read, filesystem.truncate,
      filesystem.append, ho, he, List.lookup]
  refine ⟨?_, hread, ?_⟩
  · simp [default_backend.generate_module, filesystem.read, filesystem.truncate,
      filesystem.append, ho, he, List.lookup, hne2]
  · exact ⟨_, "Error: the server cannot create a module for kernel ", ", architecture ",
      ", distro ", "\n", hread, rfl⟩

/-- Exercises `default_generate_module_diagnostic` on the sample request and
an empty file system in which every path can be opened. -/
theorem default_generate_module_diagnostic_witness :
    (default_backend.generate_module sample_request ["stap", "-v"] "/tmp/t" "u1"
        "/tmp/t/out" "/tmp/t/err" { contents := [], can_open := fun _ => true }).1 = 1
    ∧ (default_backend.generate_module sample_request ["stap", "-v"] "/tmp/t" "u1"
        "/tmp/t/out" "/tmp/t/err" { contents := [], can_open := fun _ => true }).2.read
          "/tmp/t/out" = some ""
    ∧ (default_backend.generate_module sample_request ["stap", "-v"] "/tmp/t" "u1"
        "/tmp/t/out" "/tmp/t/err" { contents := [], can_open := fun _ => true }).2.read
          "/tmp/t/err"
        = some ("Error: the server cannot create a module for kernel 5.14.0-x, "
            ++ "architecture x86_64, distro fedora38\n") := by
  obtain ⟨a, _, _, b⟩ := default_generate_module_diagnostic sample_request ["stap", "-v"]
    "/tmp/t" "u1" "/tmp/t/out" "/tmp/t/err" { contents := [], can_open := fun _ => true }
  obtain ⟨b1, b2, _⟩ := b rfl rfl (by decide)
  refine ⟨a, b1, ?_⟩
  rw [b2]
  decide

/-- C6: for a non-empty argv the local backend calls the process runner
exactly once, with argv in which element 0 is replaced by BINDIR/stap (same
length, the other elements unchanged), the request's environment and the
caller's output paths, and returns the exit code of that call. -/
theorem local_generate_module_runs_stap (cfg : config) (w : world) (l : local_backend)
    (crd : client_request_data) (argv : List String) (tmp_dir uuid : String)
    (stdout_path stderr_path : String) (hargv : argv ≠ []) :
    ∃ inv rc,
      (l.generate_module cfg w crd argv tmp_dir uuid stdout_path stderr_path).trace
        = [event.exec .local_stap inv rc]
      ∧ (l.generate_module cfg w crd argv tmp_dir uuid stdout_path stderr_path).ret = some rc
      ∧ rc = w.execute_and_capture [] inv
      ∧ inv.verbose = 2
      ∧ inv.cmd = (cfg.BINDIR ++ "/stap") :: argv.tail
      ∧ inv.cmd.length = argv.length
      ∧ inv.env_vars = crd.env_vars
      ∧ inv.stdout_path = stdout_path
      ∧ inv.stderr_path = stderr_path := by
  obtain ⟨a, rest, rfl⟩ := List.exists_cons_of_ne_nil hargv
  refine ⟨{ verbose := 2, cmd := (cfg.BINDIR ++ "/stap") :: rest, env_vars := crd.env_vars,
            stdout_path := stdout_path, stderr_path := stderr_path }, _, ?_, ?_, rfl, rfl, rfl,
          ?_, rfl, rfl, rfl⟩
  · simp [local_backend.generate_module, run_command, command]
  · simp [local_backend.generate_module, run_command, command]
  · simp

/-- Exercises `local_generate_module_runs_stap`: the client's argv[0] is
replaced and the exit code 3 of the runner is returned. -/
theorem local_generate_module_runs_stap_witness :
    (local_backend.generate_module sample_config sample_world (local_backend.ctor sample_host)
        sample_request ["/home/me/stap", "-v", "x.stp"] "/tmp/t" "u1" "/tmp/t/out"
        "/tmp/t/err").ret = some 3
    ∧ ∃ inv rc, (local_backend.generate_module sample_config sample_world
        (local_backend.ctor sample_host) sample_request ["/home/me/stap", "-v", "x.stp"]
        "/tmp/t" "u1" "/tmp/t/out" "/tmp/t/err").trace = [event.exec .local_stap inv rc]
      ∧ inv.cmd = ["/usr/bin/stap", "-v", "x.stp"] := by
  obtain ⟨inv, rc, h1, h2, h3, _, h4, _⟩ :=
    local_generate_module_runs_stap sample_config sample_world (local_backend.ctor sample_host)
      sample_request ["/home/me/stap", "-v", "x.stp"] "/tmp/t" "u1" "/tmp/t/out" "/tmp/t/err"
      (by decide)
  have hcmd : inv.cmd = ["/usr/bin/stap", "-v", "x.stp"] := by
    rw [h4]
    decide
  refine ⟨?_, inv, rc, h1, hcmd⟩
  rw [h2, h3]
  simp only [sample_world, hcmd]
  decide

/-- C7: whenever the trace of the container backend's `generate_module` holds
a run of stap, the returned value is the exit code of that run, whatever the
later unmount and removal commands returned, and stap is run exactly once;
and with a non-empty argv, when the image-build helper, docker build (if run)
and atomic mount exited with 0 and mkdir returned 0, stap is run and its exit
code is returned. -/
theorem docker_generate_module_returns_stap_status (cfg : config) (w : world)
    (self : docker_backend) (crd : client_request_data) (argv : List String)
    (tmp_dir uuid stdout_path stderr_path : String) :
    (∀ inv rc, event.exec .stap inv rc
        ∈ (self.generate_module cfg w crd argv tmp_dir uuid stdout_path stderr_path).2.trace →
      (self.generate_module cfg w crd argv tmp_dir uuid stdout_path stderr_path).2.ret = some rc
      ∧ (exec_sites (self.generate_module cfg w crd argv tmp_dir uuid stdout_path
          stderr_path).2.trace).count .stap = 1)
    ∧ (argv ≠ [] →
      (∀ site inv rc, event.exec site inv rc
          ∈ (self.generate_module cfg w crd argv tmp_dir uuid stdout_path stderr_path).2.trace →
        site = .build_image ∨ site = .docker_build ∨ site = .atomic_mount → rc = 0) →
      (∀ path mode r, event.mkdir path mode r
          ∈ (self.generate_module cfg w crd argv tmp_dir uuid stdout_path stderr_path).2.trace →
        r = 0) →
      ∃ inv rc, event.exec .stap inv rc
          ∈ (self.generate_module cfg w crd argv tmp_dir uuid stdout_path stderr_path).2.trace
        ∧ (self.generate_module cfg w crd argv tmp_dir uuid stdout_path stderr_path).2.ret
            = some rc) := by
  have hs := generate_module_has_shape cfg w self crd argv tmp_dir uuid stdout_path stderr_path
  generalize (self.generate_module cfg w crd argv tmp_dir uuid stdout_path stderr_path).2 = o
    at hs ⊢
  constructor
  · intro inv rc hrun
    rcases hs with ⟨rc1, _, rfl⟩ | ⟨_, u, rc2, _, rfl⟩ | ⟨_, u, R, hR, hs⟩ | ⟨_, R, hR, hs⟩
    · simp [build_data_event, build_image_event] at hrun
    · simp [build_data_event, build_image_event, docker_file_event, docker_build_event] at hrun
    · rcases hR with ⟨_, rfl⟩ | ⟨_, rrc, rfl⟩ <;>
        rcases hs with ⟨rcm, _, rfl⟩ | ⟨mrc, _, rfl⟩ | ⟨_, rfl⟩ | ⟨_, src, urc, rfl⟩ <;>
        simp [build_data_event, build_image_event, docker_file_event, docker_build_event,
        mkdir_event, mount_event, stap_event, unmount_event, rmi_event, exec_sites] at hrun ⊢
      all_goals exact hrun.2.symm
    · rcases hR with ⟨_, rfl⟩ | ⟨_, rrc, rfl⟩ <;>
        rcases hs with ⟨rcm, _, rfl⟩ | ⟨mrc, _, rfl⟩ | ⟨_, rfl⟩ | ⟨_, src, urc, rfl⟩ <;>
        simp [build_data_event, build_image_event, docker_file_event, docker_build_event,
        mkdir_event, mount_event, stap_event, unmount_event, rmi_event, exec_sites] at hrun ⊢
      all_goals exact hrun.2.symm
  · intro hargv hok hmk
    rcases hs with ⟨rc1, h1, rfl⟩ | ⟨_, u, rc2, h2, rfl⟩ | ⟨_, u, R, hR, hs⟩ | ⟨_, R, hR, hs⟩
    · exact absurd (hok _ _ _
        (show build_image_event cfg self crd tmp_dir uuid stdout_path stderr_path rc1 ∈ _ from
          by simp) (Or.inl rfl)) h1
    · exact absurd (hok _ _ _
        (show docker_build_event crd tmp_dir stdout_path stderr_path u rc2 ∈ _ from by simp)
        (Or.inr (Or.inl rfl))) h2
    · rcases hs with ⟨rcm, hm, rfl⟩ | ⟨mrc, hm, rfl⟩ | ⟨hnil, rfl⟩ | ⟨_, src, urc, rfl⟩
      · exact absurd (hmk _ _ _ (show mkdir_event tmp_dir rcm ∈ _ from by simp)) hm
      · exact absurd (hok _ _ _
          (show mount_event crd tmp_dir stdout_path stderr_path u mrc ∈ _ from by simp)
          (Or.inr (Or.inr rfl))) hm
      · exact absurd hnil hargv
      · exact ⟨_, src,
          (show stap_event cfg crd argv tmp_dir stdout_path stderr_path src ∈ _ from by simp),
          rfl⟩
    · rcases hs with ⟨rcm, hm, rfl⟩ | ⟨mrc, hm, rfl⟩ | ⟨hnil, rfl⟩ | ⟨_, src, urc, rfl⟩
      · exact absurd (hmk _ _ _ (show mkdir_event tmp_dir rcm ∈ _ from by simp)) hm
      · exact absurd (hok _ _ _
          (show mount_event crd tmp_dir stdout_path stderr_path uuid mrc ∈ _ from by simp)
          (Or.inr (Or.inr rfl))) hm
      · exact absurd hnil hargv
      · exact ⟨_, src,
          (show stap_event cfg crd argv tmp_dir stdout_path stderr_path src ∈ _ from by simp),
          rfl⟩

/-- Exercises `docker_generate_module_returns_stap_status` on a build with a
client.zip in which stap exits with 3, the unmount with 5 and docker rmi with
7: the returned value is 3. -/
theorem docker_generate_module_returns_stap_status_witness :
    (sample_docker.generate_module sample_config sample_world_cleanup_fails sample_zip_request
        ["stap", "-v"] "/tmp/t" "u1" "/tmp/t/out" "/tmp/t/err").2.ret = some 3
    ∧ exec_sites (sample_docker.generate_module sample_config sample_world_cleanup_fails
        sample_zip_request ["stap", "-v"] "/tmp/t" "u1" "/tmp/t/out" "/tmp/t/err").2.trace
      = [.build_image, .docker_build, .atomic_mount, .stap, .atomic_unmount, .docker_rmi]
    ∧ event.exec .docker_rmi (command sample_zip_request ["docker", "rmi", "fresh-uuid"]
          "/tmp/t/docker_stdout" "/tmp/t/docker_stderr") 7
        ∈ (sample_docker.generate_module sample_config sample_world_cleanup_fails
            sample_zip_request ["stap", "-v"] "/tmp/t" "u1" "/tmp/t/out" "/tmp/t/err").2.trace :=
  ⟨((docker_generate_module_returns_stap_status sample_config sample_world_cleanup_fails
      sample_docker sample_zip_request ["stap", "-v"] "/tmp/t" "u1" "/tmp/t/out"
      "/tmp/t/err").1
      (command sample_zip_request ["/usr/bin/stap", "--sysroot=/tmp/t/sysroot", "-v"]
        "/tmp/t/out" "/tmp/t/err") 3 (by decide)).1,
    by decide, by decide⟩

/-- C8: when the image-build helper exits with a non-zero status, the container
backend returns -1 and the helper is the only command it has run; when docker
build for client.zip exits with a non-zero status, it returns -1 and the
helper and docker build are the only commands it has run. In both cases no
directory is created. -/
theorem docker_generate_module_aborts (cfg : config) (w : world)
    (self : docker_backend) (crd : client_request_data) (argv : List String)
    (tmp_dir uuid stdout_path stderr_path : String) :
    (∀ inv rc, event.exec .build_image inv rc
        ∈ (self.generate_module cfg w crd argv tmp_dir uuid stdout_path stderr_path).2.trace →
      rc ≠ 0 →
      (self.generate_module cfg w crd argv tmp_dir uuid stdout_path stderr_path).2.ret
          = some (-1)
      ∧ exec_sites (self.generate_module cfg w crd argv tmp_dir uuid stdout_path
          stderr_path).2.trace = [.build_image]
      ∧ ∀ path mode r, event.mkdir path mode r
          ∉ (self.generate_module cfg w crd argv tmp_dir uuid stdout_path stderr_path).2.trace)
    ∧ (∀ inv rc, event.exec .docker_build inv rc
        ∈ (self.generate_module cfg w crd argv tmp_dir uuid stdout_path stderr_path).2.trace →
      rc ≠ 0 →
      (self.generate_module cfg w crd argv tmp_dir uuid stdout_path stderr_path).2.ret
          = some (-1)
      ∧ exec_sites (self.generate_module cfg w crd argv tmp_dir uuid stdout_path
          stderr_path).2.trace = [.build_image, .docker_build]
      ∧ ∀ path mode r, event.mkdir path mode r
          ∉ (self.generate_module cfg w crd argv tmp_dir uuid stdout_path stderr_path).2.trace) := by
  have hs := generate_module_has_shape cfg w self crd argv tmp_dir uuid stdout_path stderr_path
  generalize (self.generate_module cfg w crd argv tmp_dir uuid stdout_path stderr_path).2 = o
    at hs ⊢
  rcases hs with ⟨rc1, h1, rfl⟩ | ⟨_, u, rc2, h2, rfl⟩ | ⟨_, u, R, hR, hs⟩ | ⟨_, R, hR, hs⟩
  · simp [build_data_event, build_image_event, exec_sites]
  · simp [build_data_event, build_image_event, docker_file_event, docker_build_event,
      exec_sites]
  · rcases hR with ⟨_, rfl⟩ | ⟨_, rrc, rfl⟩ <;>
      rcases hs with ⟨rcm, _, rfl⟩ | ⟨mrc, _, rfl⟩ | ⟨_, rfl⟩ | ⟨_, src, urc, rfl⟩ <;>
      simp [build_data_event, build_image_event, docker_file_event, docker_build_event,
        mkdir_event, mount_event, stap_event, unmount_event, rmi_event, exec_sites]
  · rcases hR with ⟨_, rfl⟩ | ⟨_, rrc, rfl⟩ <;>
      rcases hs with ⟨rcm, _, rfl⟩ | ⟨mrc, _, rfl⟩ | ⟨_, rfl⟩ | ⟨_, src, urc, rfl⟩ <;>
      simp [build_data_event, build_image_event, docker_file_event, docker_build_event,
        mkdir_event, mount_event, stap_event, unmount_event, rmi_event, exec_sites]

/-- Exercises `docker_generate_module_aborts`: with a helper that exits with 2
the result is -1 after one command, and with a docker build that exits with 4
the result is -1 after two commands. -/
theorem docker_generate_module_aborts_witness :
    ((sample_docker.generate_module sample_config sample_world_helper_fails sample_zip_request
        ["stap", "-v"] "/tmp/t" "u1" "/tmp/t/out" "/tmp/t/err").2.ret = some (-1)
      ∧ exec_sites (sample_docker.generate_module sample_config sample_world_helper_fails
          sample_zip_request ["stap", "-v"] "/tmp/t" "u1" "/tmp/t/out" "/tmp/t/err").2.trace
        = [.build_image])
    ∧ ((sample_docker.generate_module sample_config sample_world_docker_build_fails
        sample_zip_request ["stap", "-v"] "/tmp/t" "u1" "/tmp/t/out" "/tmp/t/err").2.ret
          = some (-1)
      ∧ exec_sites (sample_docker.generate_module sample_config
          sample_world_docker_build_fails sample_zip_request ["stap", "-v"] "/tmp/t" "u1"
          "/tmp/t/out" "/tmp/t/err").2.trace = [.build_image, .docker_build]) := by
  have h1 := (docker_generate_module_aborts sample_config sample_world_helper_fails
    sample_docker sample_zip_request ["stap", "-v"] "/tmp/t" "u1" "/tmp/t/out" "/tmp/t/err").1
    (command sample_zip_request
      ["python3", "/usr/libexec/systemtap/httpd/docker/stap_build_docker_image.py",
       "--distro-file", "/usr/share/systemtap/httpd/docker/Fedora38.json",
       "--build-file", "/tmp/t/build_data.json",
       "--data-dir", "/usr/share/systemtap/httpd/docker", "u1"]
      "/tmp/t/docker_stdout" "/tmp/t/docker_stderr") 2 (by decide) (by decide)
  have h2 := (docker_generate_module_aborts sample_config sample_world_docker_build_fails
    sample_docker sample_zip_request ["stap", "-v"] "/tmp/t" "u1" "/tmp/t/out" "/tmp/t/err").2
    (command sample_zip_request
      ["docker", "build", "-t", "fresh-uuid", "-f", "/srv/req/files.docker", "/srv/req"]
      "/tmp/t/docker_stdout" "/tmp/t/docker_stderr") 4 (by decide) (by decide)
  exact ⟨⟨h1.1, h1.2.1⟩, ⟨h2.1, h2.2.1⟩⟩

/-- C9: in a container build with a non-empty argv in which every command of
the image-build and docker-build phases exited with 0, mkdir is called for
the sysroot directory; stap and atomic unmount are run, once each, exactly
when mkdir returned 0 and atomic mount exited with 0; the unmount of the
sysroot directory then directly follows the run of stap, whatever stap
returned; otherwise neither stap nor the unmount is run. -/
theorem docker_generate_module_run_unmount (cfg : config) (w : world)
    (self : docker_backend) (crd : client_request_data) (argv : List String)
    (tmp_dir uuid stdout_path stderr_path : String) (hargv : argv ≠ [])
    (hpast : ∀ site inv rc, event.exec site inv rc
        ∈ (self.generate_module cfg w crd argv tmp_dir uuid stdout_path stderr_path).2.trace →
      site = .build_image ∨ site = .docker_build → rc = 0) :
    ∃ rcm, event.mkdir (tmp_dir ++ "/sysroot") 0o700 rcm
        ∈ (self.generate_module cfg w crd argv tmp_dir uuid stdout_path stderr_path).2.trace
      ∧ (∀ path mode r, event.mkdir path mode r
          ∈ (self.generate_module cfg w crd argv tmp_dir uuid stdout_path stderr_path).2.trace →
          r = rcm)
      ∧ (((exec_sites (self.generate_module cfg w crd argv tmp_dir uuid stdout_path
              stderr_path).2.trace).count .stap = 1
          ∧ (exec_sites (self.generate_module cfg w crd argv tmp_dir uuid stdout_path
              stderr_path).2.trace).count .atomic_unmount = 1)
        ↔ (rcm = 0 ∧ ∃ inv, event.exec .atomic_mount inv 0
            ∈ (self.generate_module cfg w crd argv tmp_dir uuid stdout_path
                stderr_path).2.trace))
      ∧ ((rcm = 0 ∧ ∃ inv, event.exec .atomic_mount inv 0
            ∈ (self.generate_module cfg w crd argv tmp_dir uuid stdout_path
                stderr_path).2.trace) →
          ∃ pre post run_inv run_rc unmount_inv unmount_rc,
            (self.generate_module cfg w crd argv tmp_dir uuid stdout_path stderr_path).2.trace
              = pre ++ [event.exec .stap run_inv run_rc,
                  event.exec .atomic_unmount unmount_inv unmount_rc] ++ post
            ∧ unmount_inv.cmd = ["atomic", "unmount", tmp_dir ++ "/sysroot"])
      ∧ (¬ (rcm = 0 ∧ ∃ inv, event.exec .atomic_mount inv 0
            ∈ (self.generate_module cfg w crd argv tmp_dir uuid stdout_path
                stderr_path).2.trace) →
          call_site.stap ∉ exec_sites (self.generate_module cfg w crd argv tmp_dir uuid
              stdout_path stderr_path).2.trace
          ∧ call_site.atomic_unmount ∉ exec_sites (self.generate_module cfg w crd argv
              tmp_dir uuid stdout_path stderr_path).2.trace) := by
  have hs := generate_module_has_shape cfg w self crd argv tmp_dir uuid stdout_path stderr_path
  revert hpast
  generalize (self.generate_module cfg w crd argv tmp_dir uuid stdout_path stderr_path).2 = o
    at hs ⊢
  intro hpast
  rcases hs with ⟨rc1, h1, rfl⟩ | ⟨_, u, rc2, h2, rfl⟩ | ⟨_, u, R, hR, hs⟩ | ⟨_, R, hR, hs⟩
  · exact absurd (hpast _ _ _
      (show build_image_event cfg self crd tmp_dir uuid stdout_path stderr_path rc1 ∈ _ from
        by simp) (Or.inl rfl)) h1
  · exact absurd (hpast _ _ _
      (show docker_build_event crd tmp_dir stdout_path stderr_path u rc2 ∈ _ from by simp)
      (Or.inr rfl)) h2
  · rcases hR with ⟨_, rfl⟩ | ⟨_, rrc, rfl⟩ <;>
      rcases hs with ⟨rcm, hm, rfl⟩ | ⟨mrc, hm, rfl⟩ | ⟨hnil, rfl⟩ | ⟨_, src, urc, rfl⟩
    all_goals first
      | exact absurd hnil hargv
      | (have hm2 : ¬ 0 = rcm := fun h => hm h.symm
         refine ⟨rcm, ?_, ?_, ?_, ?_, ?_⟩ <;>
          simp [build_data_event, build_image_event, docker_file_event, docker_build_event,
            mkdir_event, mount_event, stap_event, unmount_event, rmi_event, exec_sites, hm,
            hm2])
      | (have hm2 : ¬ 0 = mrc := fun h => hm h.symm
         refine ⟨0, ?_, ?_, ?_, ?_, ?_⟩ <;>
          simp [build_data_event, build_image_event, docker_file_event, docker_build_event,
            mkdir_event, mount_event, stap_event, unmount_event, rmi_event, exec_sites, hm,
            hm2])
      | (refine ⟨0, ?_, ?_, ?_, ?_, ?_⟩
         · simp [mkdir_event]
         · simp [build_data_event, build_image_event, docker_file_event, docker_build_event,
            mkdir_event, mount_event, stap_event, unmount_event, rmi_event]
         · simp [build_data_event, build_image_event, docker_file_event, docker_build_event,
            mkdir_event, mount_event, stap_event, unmount_event, rmi_event, exec_sites]
         · intro _
           exact ⟨_, _, _, src, _, urc, split_run_unmount _ _ _ _ _ _, rfl⟩
         · simp [build_data_event, build_image_event, docker_file_event, docker_build_event,
            mkdir_event, mount_event, stap_event, unmount_event, rmi_event, exec_sites])
  · rcases hR with ⟨_, rfl⟩ | ⟨_, rrc, rfl⟩ <;>
      rcases hs with ⟨rcm, hm, rfl⟩ | ⟨mrc, hm, rfl⟩ | ⟨hnil, rfl⟩ | ⟨_, src, urc, rfl⟩
    all_goals first
      | exact absurd hnil hargv
      | (have hm2 : ¬ 0 = rcm := fun h => hm h.symm
         refine ⟨rcm, ?_, ?_, ?_, ?_, ?_⟩ <;>
          simp [build_data_event, build_image_event, docker_file_event, docker_build_event,
            mkdir_event, mount_event, stap_event, unmount_event, rmi_event, exec_sites, hm,
            hm2])
      | (have hm2 : ¬ 0 = mrc := fun h => hm h.symm
         refine ⟨0, ?_, ?_, ?_, ?_, ?_⟩ <;>
          simp [build_data_event, build_image_event, docker_file_event, docker_build_event,
            mkdir_event, mount_event, stap_event, unmount_event, rmi_event, exec_sites, hm,
            hm2])
      | (refine ⟨0, ?_, ?_, ?_, ?_, ?_⟩
         · simp [mkdir_event]
         · simp [build_data_event, build_image_event, docker_file_event, docker_build_event,
            mkdir_event, mount_event, stap_event, unmount_event, rmi_event]
         · simp [build_data_event, build_image_event, docker_file_event, docker_build_event,
            mkdir_event, mount_event, stap_event, unmount_event, rmi_event, exec_sites]
         · intro _
           exact ⟨_, _, _, src, _, urc, split_run_unmount _ _ _ _ _ _, rfl⟩
         · simp [build_data_event, build_image_event, docker_file_event, docker_build_event,
            mkdir_event, mount_event, stap_event, unmount_event, rmi_event, exec_sites])

/-- Exercises `docker_generate_module_run_unmount`: when mkdir and the mount
succeed, stap (exit code 3) and the unmount are run once each; when the mount
exits with 6, neither is run. -/
theorem docker_generate_module_run_unmount_witness :
    ((exec_sites (sample_docker.generate_module sample_config sample_world_cleanup_fails
          sample_zip_request ["stap", "-v"] "/tmp/t" "u1" "/tmp/t/out"
          "/tmp/t/err").2.trace).count .stap = 1
      ∧ (exec_sites (sample_docker.generate_module sample_config sample_world_cleanup_fails
          sample_zip_request ["stap", "-v"] "/tmp/t" "u1" "/tmp/t/out"
          "/tmp/t/err").2.trace).count .atomic_unmount = 1)
    ∧ (call_site.stap ∉ exec_sites (sample_docker.generate_module sample_config
          sample_world_mount_fails sample_zip_request ["stap", "-v"] "/tmp/t" "u1" "/tmp/t/out"
          "/tmp/t/err").2.trace
      ∧ call_site.atomic_unmount ∉ exec_sites (sample_docker.generate_module sample_config
          sample_world_mount_fails sample_zip_request ["stap", "-v"] "/tmp/t" "u1" "/tmp/t/out"
          "/tmp/t/err").2.trace) := by
  constructor
  · have hall : ∀ e ∈ (sample_docker.generate_module sample_config sample_world_cleanup_fails
        sample_zip_request ["stap", "-v"] "/tmp/t" "u1" "/tmp/t/out" "/tmp/t/err").2.trace,
        (match e with
          | event.exec site _ rc =>
            !(site == call_site.build_image || site == call_site.docker_build) || rc == 0
          | _ => true) = true := by decide
    obtain ⟨rcm, hmk, huniq, hiff, _, _⟩ :=
      docker_generate_module_run_unmount sample_config sample_world_cleanup_fails sample_docker
        sample_zip_request ["stap", "-v"] "/tmp/t" "u1" "/tmp/t/out" "/tmp/t/err" (by decide)
        (fun site inv rc hmem hsite => by
          have h := hall _ hmem
          rcases hsite with rfl | rfl <;> simpa using h)
    have h0 : rcm = 0 := (huniq "/tmp/t/sysroot" 0o700 0 (by decide)).symm
    exact hiff.mpr ⟨h0, command sample_zip_request
      ["atomic", "mount", "fresh-uuid", "/tmp/t/sysroot"] "/tmp/t/docker_stdout"
      "/tmp/t/docker_stderr", by decide⟩
  · have hall : ∀ e ∈ (sample_docker.generate_module sample_config sample_world_mount_fails
        sample_zip_request ["stap", "-v"] "/tmp/t" "u1" "/tmp/t/out" "/tmp/t/err").2.trace,
        (match e with
          | event.exec site _ rc =>
            !(site == call_site.build_image || site == call_site.docker_build) || rc == 0
          | _ => true) = true := by decide
    obtain ⟨rcm, hmk, huniq, _, _, hnot⟩ :=
      docker_generate_module_run_unmount sample_config sample_world_mount_fails sample_docker
        sample_zip_request ["stap", "-v"] "/tmp/t" "u1" "/tmp/t/out" "/tmp/t/err" (by decide)
        (fun site inv rc hmem hsite => by
          have h := hall _ hmem
          rcases hsite with rfl | rfl <;> simpa using h)
    refine hnot ?_
    rintro ⟨_, inv, hinv⟩
    have hall2 : ∀ e ∈ (sample_docker.generate_module sample_config sample_world_mount_fails
        sample_zip_request ["stap", "-v"] "/tmp/t" "u1" "/tmp/t/out" "/tmp/t/err").2.trace,
        (match e with
          | event.exec site _ rc => !(site == call_site.atomic_mount) || rc == 6
          | _ => true) = true := by decide
    have h := hall2 _ hinv
    simp at h

/-- C10: in a container build with a non-empty argv in which docker build
succeeded, the last event is a docker rmi whose arguments are exactly the
uuid that `get_uuid` returned and docker build tagged, and it is the only
docker rmi; when docker build did not succeed (or was not run) there is no
docker rmi; docker rm is never run; and the request uuid is not an argument of
a removal command as long as `get_uuid` does not return the request uuid. -/
theorem docker_generate_module_removes_overlay_image (cfg : config) (w : world)
    (self : docker_backend) (crd : client_request_data) (argv : List String)
    (tmp_dir uuid stdout_path stderr_path : String) (hargv : argv ≠ []) :
    ((∃ inv, event.exec .docker_build inv 0
        ∈ (self.generate_module cfg w crd argv tmp_dir uuid stdout_path stderr_path).2.trace) →
      ∃ u pre rmi rc,
        event.get_uuid u
          ∈ (self.generate_module cfg w crd argv tmp_dir uuid stdout_path stderr_path).2.trace
        ∧ (∀ inv r, event.exec .docker_build inv r
            ∈ (self.generate_module cfg w crd argv tmp_dir uuid stdout_path stderr_path).2.trace →
            inv.cmd.take 4 = ["docker", "build", "-t", u])
        ∧ (self.generate_module cfg w crd argv tmp_dir uuid stdout_path stderr_path).2.trace
            = pre ++ [event.exec .docker_rmi rmi rc]
        ∧ rmi.cmd = ["docker", "rmi", u]
        ∧ (exec_sites (self.generate_module cfg w crd argv tmp_dir uuid stdout_path
            stderr_path).2.trace).count .docker_rmi = 1)
    ∧ ((¬ ∃ inv, event.exec .docker_build inv 0
        ∈ (self.generate_module cfg w crd argv tmp_dir uuid stdout_path stderr_path).2.trace) →
      call_site.docker_rmi ∉ exec_sites (self.generate_module cfg w crd argv tmp_dir uuid
        stdout_path stderr_path).2.trace)
    ∧ call_site.docker_rm ∉ exec_sites (self.generate_module cfg w crd argv tmp_dir uuid
        stdout_path stderr_path).2.trace
    ∧ (∀ site inv rc, event.exec site inv rc
        ∈ (self.generate_module cfg w crd argv tmp_dir uuid stdout_path stderr_path).2.trace →
      site = .docker_rmi ∨ site = .docker_rm →
      (∀ u, event.get_uuid u
        ∈ (self.generate_module cfg w crd argv tmp_dir uuid stdout_path stderr_path).2.trace →
        u ≠ uuid) →
      uuid ∉ inv.cmd.drop 2) := by
  have hs := generate_module_has_shape cfg w self crd argv tmp_dir uuid stdout_path stderr_path
  generalize (self.generate_module cfg w crd argv tmp_dir uuid stdout_path stderr_path).2 = o
    at hs ⊢
  rcases hs with ⟨rc1, h1, rfl⟩ | ⟨_, u, rc2, h2, rfl⟩ | ⟨_, u, R, hR, hs⟩ | ⟨_, R, hR, hs⟩
  · refine ⟨?_, ?_, ?_, ?_⟩
    · simp [build_data_event, build_image_event, docker_file_event, docker_build_event,
              mkdir_event, mount_event, stap_event, unmount_event, rmi_event, exec_sites, command]
    · simp [build_data_event, build_image_event, docker_file_event, docker_build_event,
              mkdir_event, mount_event, stap_event, unmount_event, rmi_event, exec_sites, command]
    · simp [build_data_event, build_image_event, docker_file_event, docker_build_event,
              mkdir_event, mount_event, stap_event, unmount_event, rmi_event, exec_sites, command]
    · intro site inv rc hmem hsite _
      rcases hsite with rfl | rfl <;>
        simp [build_data_event, build_image_event, docker_file_event, docker_build_event,
              mkdir_event, mount_event, stap_event, unmount_event, rmi_event, exec_sites, command] at hmem
  · have h2b : ¬ 0 = rc2 := fun h => h2 h.symm
    refine ⟨?_, ?_, ?_, ?_⟩
    · simp [build_data_event, build_image_event, docker_file_event, docker_build_event,
              mkdir_event, mount_event, stap_event, unmount_event, rmi_event, exec_sites, command, h2, h2b]
    · simp [build_data_event, build_image_event, docker_file_event, docker_build_event,
              mkdir_event, mount_event, stap_event, unmount_event, rmi_event, exec_sites, command, h2, h2b]
    · simp [build_data_event, build_image_event, docker_file_event, docker_build_event,
              mkdir_event, mount_event, stap_event, unmount_event, rmi_event, exec_sites, command, h2, h2b]
    · intro site inv rc hmem hsite _
      rcases hsite with rfl | rfl <;>
        simp [build_data_event, build_image_event, docker_file_event, docker_build_event,
              mkdir_event, mount_event, stap_event, unmount_event, rmi_event, exec_sites, command] at hmem
  · rcases hR with ⟨hne, rfl⟩ | ⟨_, rrc, rfl⟩
    · exact absurd hne (by simp)
    · rcases hs with ⟨rcm, hm, rfl⟩ | ⟨mrc, hm, rfl⟩ | ⟨hnil, rfl⟩ | ⟨_, src, urc, rfl⟩
      · refine ⟨fun _ => ⟨u, _, _, rrc, ?_, ?_, rfl, rfl, ?_⟩, ?_, ?_, ?_⟩
        · simp [build_data_event, build_image_event, docker_file_event, docker_build_event,
                  mkdir_event, mount_event, stap_event, unmount_event, rmi_event, exec_sites, command]
        · simp [build_data_event, build_image_event, docker_file_event, docker_build_event,
                  mkdir_event, mount_event, stap_event, unmount_event, rmi_event, exec_sites, command]
        · simp [build_data_event, build_image_event, docker_file_event, docker_build_event,
                  mkdir_event, mount_event, stap_event, unmount_event, rmi_event, exec_sites, command]
        · simp [build_data_event, build_image_event, docker_file_event, docker_build_event,
                  mkdir_event, mount_event, stap_event, unmount_event, rmi_event, exec_sites, command]
        · simp [build_data_event, build_image_event, docker_file_event, docker_build_event,
                  mkdir_event, mount_event, stap_event, unmount_event, rmi_event, exec_sites, command]
        · intro site inv rc hmem hsite hfresh
          rcases hsite with rfl | rfl
          · simp [build_data_event, build_image_event, docker_file_event, docker_build_event,
                  mkdir_event, mount_event, stap_event, unmount_event, rmi_event, exec_sites, command] at hmem
            obtain ⟨rfl, rfl⟩ := hmem
            simp [build_data_event, build_image_event, docker_file_event, docker_build_event,
                  mkdir_event, mount_event, stap_event, unmount_event, rmi_event, exec_sites, command] at hfresh ⊢
            exact fun h => hfresh h.symm
          · simp [build_data_event, build_image_event, docker_file_event, docker_build_event,
                  mkdir_event, mount_event, stap_event, unmount_event, rmi_event, exec_sites, command] at hmem
      · refine ⟨fun _ => ⟨u, _, _, rrc, ?_, ?_, rfl, rfl, ?_⟩, ?_, ?_, ?_⟩
        · simp [build_data_event, build_image_event, docker_file_event, docker_build_event,
                  mkdir_event, mount_event, stap_event, unmount_event, rmi_event, exec_sites, command]
        · simp [build_data_event, build_image_event, docker_file_event, docker_build_event,
                  mkdir_event, mount_event, stap_event, unmount_event, rmi_event, exec_sites, command]
        · simp [build_data_event, build_image_event, docker_file_event, docker_build_event,
                  mkdir_event, mount_event, stap_event, unmount_event, rmi_event, exec_sites, command]
        · simp [build_data_event, build_image_event, docker_file_event, docker_build_event,
                  mkdir_event, mount_event, stap_event, unmount_event, rmi_event, exec_sites, command]
        · simp [build_data_event, build_image_event, docker_file_event, docker_build_event,
                  mkdir_event, mount_event, stap_event, unmount_event, rmi_event, exec_sites, command]
        · intro site inv rc hmem hsite hfresh
          rcases hsite with rfl | rfl
          · simp [build_data_event, build_image_event, docker_file_event, docker_build_event,
                  mkdir_event, mount_event, stap_event, unmount_event, rmi_event, exec_sites, command] at hmem
            obtain ⟨rfl, rfl⟩ := hmem
            simp [build_data_event, build_image_event, docker_file_event, docker_build_event,
                  mkdir_event, mount_event, stap_event, unmount_event, rmi_event, exec_sites, command] at hfresh ⊢
            exact fun h => hfresh h.symm
          · simp [build_data_event, build_image_event, docker_file_event, docker_build_event,
                  mkdir_event, mount_event, stap_event, unmount_event, rmi_event, exec_sites, command] at hmem
      · exact absurd hnil hargv
      · refine ⟨fun _ => ⟨u, _, _, rrc, ?_, ?_, rfl, rfl, ?_⟩, ?_, ?_, ?_⟩
        · simp [build_data_event, build_image_event, docker_file_event, docker_build_event,
                  mkdir_event, mount_event, stap_event, unmount_event, rmi_event, exec_sites, command]
        · simp [build_data_event, build_image_event, docker_file_event, docker_build_event,
                  mkdir_event, mount_event, stap_event, unmount_event, rmi_event, exec_sites, command]
        · simp [build_data_event, build_image_event, docker_file_event, docker_build_event,
                  mkdir_event, mount_event, stap_event, unmount_event, rmi_event, exec_sites, command]
        · simp [build_data_event, build_image_event, docker_file_event, docker_build_event,
                  mkdir_event, mount_event, stap_event, unmount_event, rmi_event, exec_sites, command]
        · simp [build_data_event, build_image_event, docker_file_event, docker_build_event,
                  mkdir_event, mount_event, stap_event, unmount_event, rmi_event, exec_sites, command]
        · intro site inv rc hmem hsite hfresh
          rcases hsite with rfl | rfl
          · simp [build_data_event, build_image_event, docker_file_event, docker_build_event,
                  mkdir_event, mount_event, stap_event, unmount_event, rmi_event, exec_sites, command] at hmem
            obtain ⟨rfl, rfl⟩ := hmem
            simp [build_data_event, build_image_event, docker_file_event, docker_build_event,
                  mkdir_event, mount_event, stap_event, unmount_event, rmi_event, exec_sites, command] at hfresh ⊢
            exact fun h => hfresh h.symm
          · simp [build_data_event, build_image_event, docker_file_event, docker_build_event,
                  mkdir_event, mount_event, stap_event, unmount_event, rmi_event, exec_sites, command] at hmem
  · rcases hR with ⟨_, rfl⟩ | ⟨hne, _, _⟩
    · rcases hs with ⟨rcm, hm, rfl⟩ | ⟨mrc, hm, rfl⟩ | ⟨hnil, rfl⟩ | ⟨_, src, urc, rfl⟩
      · refine ⟨?_, ?_, ?_, ?_⟩
        · simp [build_data_event, build_image_event, docker_file_event, docker_build_event,
                  mkdir_event, mount_event, stap_event, unmount_event, rmi_event, exec_sites, command]
        · simp [build_data_event, build_image_event, docker_file_event, docker_build_event,
                  mkdir_event, mount_event, stap_event, unmount_event, rmi_event, exec_sites, command]
        · simp [build_data_event, build_image_event, docker_file_event, docker_build_event,
                  mkdir_event, mount_event, stap_event, unmount_event, rmi_event, exec_sites, command]
        · intro site inv rc hmem hsite _
          rcases hsite with rfl | rfl <;>
            simp [build_data_event, build_image_event, docker_file_event, docker_build_event,
                  mkdir_event, mount_event, stap_event, unmount_event, rmi_event, exec_sites, command] at hmem
      · refine ⟨?_, ?_, ?_, ?_⟩
        · simp [build_data_event, build_image_event, docker_file_event, docker_build_event,
                  mkdir_event, mount_event, stap_event, unmount_event, rmi_event, exec_sites, command]
        · simp [build_data_event, build_image_event, docker_file_event, docker_build_event,
                  mkdir_event, mount_event, stap_event, unmount_event, rmi_event, exec_sites, command]
        · simp [build_data_event, build_image_event, docker_file_event, docker_build_event,
                  mkdir_event, mount_event, stap_event, unmount_event, rmi_event, exec_sites, command]
        · intro site inv rc hmem hsite _
          rcases hsite with rfl | rfl <;>
            simp [build_data_event, build_image_event, docker_file_event, docker_build_event,
                  mkdir_event, mount_event, stap_event, unmount_event, rmi_event, exec_sites, command] at hmem
      · exact absurd hnil hargv
      · refine ⟨?_, ?_, ?_, ?_⟩
        · simp [build_data_event, build_image_event, docker_file_event, docker_build_event,
                  mkdir_event, mount_event, stap_event, unmount_event, rmi_event, exec_sites, command]
        · simp [build_data_event, build_image_event, docker_file_event, docker_build_event,
                  mkdir_event, mount_event, stap_event, unmount_event, rmi_event, exec_sites, command]
        · simp [build_data_event, build_image_event, docker_file_event, docker_build_event,
                  mkdir_event, mount_event, stap_event, unmount_event, rmi_event, exec_sites, command]
        · intro site inv rc hmem hsite _
          rcases hsite with rfl | rfl <;>
            simp [build_data_event, build_image_event, docker_file_event, docker_build_event,
                  mkdir_event, mount_event, stap_event, unmount_event, rmi_event, exec_sites, command] at hmem
    · exact absurd rfl hne

/-- Exercises `docker_generate_module_removes_overlay_image`: in a build with a
client.zip the last event is docker rmi of the generated uuid, also when the
unmount failed; in a build without client.zip there is no docker rmi. -/
theorem docker_generate_module_removes_overlay_image_witness :
    (∃ pre rmi rc,
      (sample_docker.generate_module sample_config sample_world_cleanup_fails sample_zip_request
          ["stap", "-v"] "/tmp/t" "u1" "/tmp/t/out" "/tmp/t/err").2.trace
        = pre ++ [event.exec .docker_rmi rmi rc]
      ∧ rmi.cmd = ["docker", "rmi", "fresh-uuid"]
      ∧ "u1" ∉ rmi.cmd.drop 2)
    ∧ call_site.docker_rmi ∉ exec_sites (sample_docker.generate_module sample_config
        sample_world sample_request ["stap", "-v"] "/tmp/t" "u1" "/tmp/t/out"
        "/tmp/t/err").2.trace := by
  constructor
  · have hall : ∀ e ∈ (sample_docker.generate_module sample_config sample_world_cleanup_fails
        sample_zip_request ["stap", "-v"] "/tmp/t" "u1" "/tmp/t/out" "/tmp/t/err").2.trace,
        (match e with
          | event.get_uuid x => x == "fresh-uuid"
          | _ => true) = true := by decide
    obtain ⟨h1, _, _, h4⟩ :=
      docker_generate_module_removes_overlay_image sample_config sample_world_cleanup_fails
        sample_docker sample_zip_request ["stap", "-v"] "/tmp/t" "u1" "/tmp/t/out" "/tmp/t/err"
        (by decide)
    obtain ⟨u, pre, rmi, rc, hu, _, ht, hcmd, _⟩ := h1 ⟨command sample_zip_request
      ["docker", "build", "-t", "fresh-uuid", "-f", "/srv/req/files.docker", "/srv/req"]
      "/tmp/t/docker_stdout" "/tmp/t/docker_stderr", by decide⟩
    have hfresh : u = "fresh-uuid" := by simpa using hall _ hu
    subst hfresh
    refine ⟨pre, rmi, rc, ht, hcmd, ?_⟩
    refine h4 .docker_rmi rmi rc ?_ (Or.inl rfl) ?_
    · rw [ht]
      simp
    · intro x hx
      have hx2 : x = "fresh-uuid" := by simpa using hall _ hx
      rw [hx2]
      decide
  · refine (docker_generate_module_removes_overlay_image sample_config sample_world
      sample_docker sample_request ["stap", "-v"] "/tmp/t" "u1" "/tmp/t/out" "/tmp/t/err"
      (by decide)).2.1 ?_
    rintro ⟨inv, hinv⟩
    have hall : ∀ e ∈ (sample_docker.generate_module sample_config sample_world
        sample_request ["stap", "-v"] "/tmp/t" "u1" "/tmp/t/out" "/tmp/t/err").2.trace,
        (match e with
          | event.exec site _ _ => !(site == call_site.docker_build)
          | _ => true) = true := by decide
    have h := hall _ hinv
    simp at h

/-- C11, as stated, fails: when the image-build helper is the first command to
exit with a non-zero status, here 2, stap is not run and the returned value is
-1, not 2. -/
theorem docker_generate_module_first_failure_counterexample :
    event.exec .build_image
        (command sample_zip_request
          ["python3", "/usr/libexec/systemtap/httpd/docker/stap_build_docker_image.py",
           "--distro-file", "/usr/share/systemtap/httpd/docker/Fedora38.json",
           "--build-file", "/tmp/t/build_data.json",
           "--data-dir", "/usr/share/systemtap/httpd/docker", "u1"]
          "/tmp/t/docker_stdout" "/tmp/t/docker_stderr") 2
      ∈ (sample_docker.generate_module sample_config sample_world_helper_fails
          sample_zip_request ["stap", "-v"] "/tmp/t" "u1" "/tmp/t/out" "/tmp/t/err").2.trace
    ∧ exec_sites (sample_docker.generate_module sample_config sample_world_helper_fails
        sample_zip_request ["stap", "-v"] "/tmp/t" "u1" "/tmp/t/out" "/tmp/t/err").2.trace
      = [.build_image]
    ∧ (sample_docker.generate_module sample_config sample_world_helper_fails
        sample_zip_request ["stap", "-v"] "/tmp/t" "u1" "/tmp/t/out" "/tmp/t/err").2.ret
      = some (-1)
    ∧ (sample_docker.generate_module sample_config sample_world_helper_fails
        sample_zip_request ["stap", "-v"] "/tmp/t" "u1" "/tmp/t/out" "/tmp/t/err").2.ret
      ≠ some 2 := by
  decide

/-- C11, amended: when the image-build helper or docker build exits with a
non-zero status, the container backend returns -1; when atomic mount exits
with a non-zero status s, every earlier command has exited with 0, stap is not
run and the returned value is s. -/
theorem docker_generate_module_first_failure (cfg : config) (w : world)
    (self : docker_backend) (crd : client_request_data) (argv : List String)
    (tmp_dir uuid stdout_path stderr_path : String) :
    (∀ site inv s, event.exec site inv s
        ∈ (self.generate_module cfg w crd argv tmp_dir uuid stdout_path stderr_path).2.trace →
      site = .build_image ∨ site = .docker_build → s ≠ 0 →
      (self.generate_module cfg w crd argv tmp_dir uuid stdout_path stderr_path).2.ret
        = some (-1))
    ∧ (∀ inv s, event.exec .atomic_mount inv s
        ∈ (self.generate_module cfg w crd argv tmp_dir uuid stdout_path stderr_path).2.trace →
      s ≠ 0 →
      (self.generate_module cfg w crd argv tmp_dir uuid stdout_path stderr_path).2.ret = some s
      ∧ call_site.stap ∉ exec_sites (self.generate_module cfg w crd argv tmp_dir uuid
          stdout_path stderr_path).2.trace
      ∧ ∀ site2 inv2 rc2, event.exec site2 inv2 rc2
          ∈ (self.generate_module cfg w crd argv tmp_dir uuid stdout_path stderr_path).2.trace →
        site2 = .build_image ∨ site2 = .docker_build → rc2 = 0) := by
  have hs := generate_module_has_shape cfg w self crd argv tmp_dir uuid stdout_path stderr_path
  generalize (self.generate_module cfg w crd argv tmp_dir uuid stdout_path stderr_path).2 = o
    at hs ⊢
  constructor
  · intro site inv s hmem hsite hne
    rcases hs with ⟨rc1, _, rfl⟩ | ⟨_, u, rc2, _, rfl⟩ | ⟨_, u, R, hR, hs⟩ | ⟨_, R, hR, hs⟩
    · rfl
    · rfl
    · rcases hR with ⟨_, rfl⟩ | ⟨_, rrc, rfl⟩ <;>
        rcases hs with ⟨rcm, _, rfl⟩ | ⟨mrc, _, rfl⟩ | ⟨_, rfl⟩ | ⟨_, src, urc, rfl⟩ <;>
        rcases hsite with rfl | rfl <;>
        simp [build_data_event, build_image_event, docker_file_event, docker_build_event,
          mkdir_event, mount_event, stap_event, unmount_event, rmi_event] at hmem <;>
        exact absurd hmem.2 hne
    · rcases hR with ⟨_, rfl⟩ | ⟨_, rrc, rfl⟩ <;>
        rcases hs with ⟨rcm, _, rfl⟩ | ⟨mrc, _, rfl⟩ | ⟨_, rfl⟩ | ⟨_, src, urc, rfl⟩ <;>
        rcases hsite with rfl | rfl <;>
        simp [build_data_event, build_image_event, docker_file_event, docker_build_event,
          mkdir_event, mount_event, stap_event, unmount_event, rmi_event] at hmem <;>
        exact absurd hmem.2 hne
  · intro inv s hmem hne
    have hne2 : ¬ 0 = s := fun h => hne h.symm
    rcases hs with ⟨rc1, _, rfl⟩ | ⟨_, u, rc2, _, rfl⟩ | ⟨_, u, R, hR, hs⟩ | ⟨_, R, hR, hs⟩
    · simp [build_data_event, build_image_event] at hmem
    · simp [build_data_event, build_image_event, docker_file_event, docker_build_event] at hmem
    · rcases hR with ⟨_, rfl⟩ | ⟨_, rrc, rfl⟩ <;>
        rcases hs with ⟨rcm, _, rfl⟩ | ⟨mrc, _, rfl⟩ | ⟨_, rfl⟩ | ⟨_, src, urc, rfl⟩ <;>
        simp [build_data_event, build_image_event, docker_file_event, docker_build_event,
          mkdir_event, mount_event, stap_event, unmount_event, rmi_event, hne, hne2] at hmem <;>
        (obtain ⟨rfl, rfl⟩ := hmem
         refine ⟨rfl, ?_, ?_⟩
         · simp [build_data_event, build_image_event, docker_file_event, docker_build_event,
             mkdir_event, mount_event, stap_event, unmount_event, rmi_event, exec_sites]
         · intro site2 inv2 rc2 h2 hs2
           rcases hs2 with rfl | rfl <;>
             simp [build_data_event, build_image_event, docker_file_event,
               docker_build_event, mkdir_event, mount_event, stap_event, unmount_event,
               rmi_event] at h2
           all_goals exact h2.2)
    · rcases hR with ⟨_, rfl⟩ | ⟨_, rrc, rfl⟩ <;>
        rcases hs with ⟨rcm, _, rfl⟩ | ⟨mrc, _, rfl⟩ | ⟨_, rfl⟩ | ⟨_, src, urc, rfl⟩ <;>
        simp [build_data_event, build_image_event, docker_file_event, docker_build_event,
          mkdir_event, mount_event, stap_event, unmount_event, rmi_event, hne, hne2] at hmem <;>
        (obtain ⟨rfl, rfl⟩ := hmem
         refine ⟨rfl, ?_, ?_⟩
         · simp [build_data_event, build_image_event, docker_file_event, docker_build_event,
             mkdir_event, mount_event, stap_event, unmount_event, rmi_event, exec_sites]
         · intro site2 inv2 rc2 h2 hs2
           rcases hs2 with rfl | rfl <;>
             simp [build_data_event, build_image_event, docker_file_event,
               docker_build_event, mkdir_event, mount_event, stap_event, unmount_event,
               rmi_event] at h2
           all_goals exact h2.2)

/-- Exercises `docker_generate_module_first_failure`: an atomic mount that
exits with 6 makes the build return 6, and a helper that exits with 2 makes it
return -1. -/
theorem docker_generate_module_first_failure_witness :
    (sample_docker.generate_module sample_config sample_world_mount_fails sample_zip_request
        ["stap", "-v"] "/tmp/t" "u1" "/tmp/t/out" "/tmp/t/err").2.ret = some 6
    ∧ (sample_docker.generate_module sample_config sample_world_helper_fails sample_zip_request
        ["stap", "-v"] "/tmp/t" "u1" "/tmp/t/out" "/tmp/t/err").2.ret = some (-1) :=
  ⟨((docker_generate_module_first_failure sample_config sample_world_mount_fails sample_docker
      sample_zip_request ["stap", "-v"] "/tmp/t" "u1" "/tmp/t/out" "/tmp/t/err").2
      (command sample_zip_request ["atomic", "mount", "fresh-uuid", "/tmp/t/sysroot"]
        "/tmp/t/docker_stdout" "/tmp/t/docker_stderr") 6 (by decide) (by decide)).1,
   (docker_generate_module_first_failure sample_config sample_world_helper_fails sample_docker
      sample_zip_request ["stap", "-v"] "/tmp/t" "u1" "/tmp/t/out" "/tmp/t/err").1
      .build_image
      (command sample_zip_request
        ["python3", "/usr/libexec/systemtap/httpd/docker/stap_build_docker_image.py",
         "--distro-file", "/usr/share/systemtap/httpd/docker/Fedora38.json",
         "--build-file", "/tmp/t/build_data.json",
         "--data-dir", "/usr/share/systemtap/httpd/docker", "u1"]
        "/tmp/t/docker_stdout" "/tmp/t/docker_stderr") 2 (by decide) (Or.inl rfl) (by decide)⟩

/-- C13: for a non-empty argv, a run of stap in the container backend executes
BINDIR/stap, then the option --sysroot=tmp_dir/sysroot, then argv[1],
argv[2], ... in order (one element more than argv); the directory of the
option is the one mkdir created, atomic mount was given as its target and
atomic unmount is given. -/
theorem docker_generate_module_stap_command (cfg : config) (w : world)
    (self : docker_backend) (crd : client_request_data) (argv : List String)
    (tmp_dir uuid stdout_path stderr_path : String) (hargv : argv ≠ []) :
    (∀ inv rc, event.exec .stap inv rc
        ∈ (self.generate_module cfg w crd argv tmp_dir uuid stdout_path stderr_path).2.trace →
      inv.cmd = (cfg.BINDIR ++ "/stap") :: ("--sysroot=" ++ tmp_dir ++ "/sysroot") :: argv.tail
      ∧ inv.cmd.length = argv.length + 1)
    ∧ (∀ path mode rc, event.mkdir path mode rc
        ∈ (self.generate_module cfg w crd argv tmp_dir uuid stdout_path stderr_path).2.trace →
      path = tmp_dir ++ "/sysroot")
    ∧ (∀ inv rc, event.exec .atomic_mount inv rc
        ∈ (self.generate_module cfg w crd argv tmp_dir uuid stdout_path stderr_path).2.trace →
      ∃ image, inv.cmd = ["atomic", "mount", image, tmp_dir ++ "/sysroot"])
    ∧ (∀ inv rc, event.exec .atomic_unmount inv rc
        ∈ (self.generate_module cfg w crd argv tmp_dir uuid stdout_path stderr_path).2.trace →
      inv.cmd = ["atomic", "unmount", tmp_dir ++ "/sysroot"]) := by
  obtain ⟨a, rest, rfl⟩ := List.exists_cons_of_ne_nil hargv
  have hs := generate_module_has_shape cfg w self crd (a :: rest) tmp_dir uuid stdout_path
    stderr_path
  generalize (self.generate_module cfg w crd (a :: rest) tmp_dir uuid stdout_path
    stderr_path).2 = o at hs ⊢
  rcases hs with ⟨rc1, _, rfl⟩ | ⟨_, u, rc2, _, rfl⟩ | ⟨_, u, R, hR, hs⟩ | ⟨_, R, hR, hs⟩
  · simp [build_data_event, build_image_event]
  · simp [build_data_event, build_image_event, docker_file_event, docker_build_event]
  · rcases hR with ⟨_, rfl⟩ | ⟨_, rrc, rfl⟩ <;>
      rcases hs with ⟨rcm, _, rfl⟩ | ⟨mrc, _, rfl⟩ | ⟨_, rfl⟩ | ⟨_, src, urc, rfl⟩ <;>
      simp [build_data_event, build_image_event, docker_file_event, docker_build_event,
        mkdir_event, mount_event, stap_event, unmount_event, rmi_event, command,
        vector_insert, String.append_assoc]
    all_goals (intro _ _ _ hp _ _; exact hp)
  · rcases hR with ⟨_, rfl⟩ | ⟨_, rrc, rfl⟩ <;>
      rcases hs with ⟨rcm, _, rfl⟩ | ⟨mrc, _, rfl⟩ | ⟨_, rfl⟩ | ⟨_, src, urc, rfl⟩ <;>
      simp [build_data_event, build_image_event, docker_file_event, docker_build_event,
        mkdir_event, mount_event, stap_event, unmount_event, rmi_event, command,
        vector_insert, String.append_assoc]
    all_goals (intro _ _ _ hp _ _; exact hp)

/-- Exercises `docker_generate_module_stap_command`: the client's argv
stap -v is run as /usr/bin/stap --sysroot=/tmp/t/sysroot -v. -/
theorem docker_generate_module_stap_command_witness :
    ∃ inv, event.exec .stap inv 3
        ∈ (sample_docker.generate_module sample_config sample_world_cleanup_fails
            sample_zip_request ["stap", "-v"] "/tmp/t" "u1" "/tmp/t/out" "/tmp/t/err").2.trace
      ∧ inv.cmd = ["/usr/bin/stap", "--sysroot=/tmp/t/sysroot", "-v"]
      ∧ inv.cmd.length = 3 := by
  have hmem : event.exec .stap
      (command sample_zip_request ["/usr/bin/stap", "--sysroot=/tmp/t/sysroot", "-v"]
        "/tmp/t/out" "/tmp/t/err") 3
      ∈ (sample_docker.generate_module sample_config sample_world_cleanup_fails
          sample_zip_request ["stap", "-v"] "/tmp/t" "u1" "/tmp/t/out" "/tmp/t/err").2.trace := by
    decide
  have h := (docker_generate_module_stap_command sample_config sample_world_cleanup_fails
    sample_docker sample_zip_request ["stap", "-v"] "/tmp/t" "u1" "/tmp/t/out" "/tmp/t/err"
    (by decide)).1 _ 3 hmem
  exact ⟨_, hmem, h.1.trans (by decide), h.2.trans (by decide)⟩

/-- C14: the trace of a container build starts with the write of
build_data.json followed by the image-build helper, run as: interpreter,
script, --distro-file and the file that `data_files` maps the request's
distribution name to (there is one whenever the backend accepts the request),
--build-file tmp_dir/build_data.json, --data-dir and the data directory, and
last the request uuid. Hence two builds with different uuids are given
different image tags, and two builds with different tmp_dirs different
build files and different mount points. -/
theorem docker_generate_module_helper_command (cfg : config) (w : world)
    (self : docker_backend) (crd : client_request_data) (argv : List String)
    (tmp_dir uuid stdout_path stderr_path : String) :
    (∃ inv rc rest,
      (self.generate_module cfg w crd argv tmp_dir uuid stdout_path stderr_path).2.trace
        = event.ofstream_write (tmp_dir ++ "/build_data.json") (w.get_json_string crd)
          :: event.exec .build_image inv rc :: rest
      ∧ inv.cmd = [cfg.PYTHON_BASENAME, self.docker_build_container_script_path,
          "--distro-file", (self.data_files.lookup crd.distro_name).getD "",
          "--build-file", tmp_dir ++ "/build_data.json",
          "--data-dir", self.datadir, uuid])
    ∧ (self.can_generate_module crd = true →
        ∃ path, (crd.distro_name, path) ∈ self.data_files
          ∧ (self.data_files.lookup crd.distro_name).getD "" = path)
    ∧ (∀ (w2 : world) (self2 : docker_backend) (crd2 : client_request_data)
        (argv2 : List String) (tmp_dir2 uuid2 stdout_path2 stderr_path2 : String)
        (inv1 : invocation) (rc1 : Int) (inv2 : invocation) (rc2 : Int),
        event.exec .build_image inv1 rc1
          ∈ (self.generate_module cfg w crd argv tmp_dir uuid stdout_path stderr_path).2.trace →
        event.exec .build_image inv2 rc2
          ∈ (self2.generate_module cfg w2 crd2 argv2 tmp_dir2 uuid2 stdout_path2
              stderr_path2).2.trace →
        (uuid ≠ uuid2 → inv1.cmd.getLast? ≠ inv2.cmd.getLast?)
        ∧ (tmp_dir ≠ tmp_dir2 → inv1.cmd[5]? ≠ inv2.cmd[5]?))
    ∧ (∀ (w2 : world) (self2 : docker_backend) (crd2 : client_request_data)
        (argv2 : List String) (tmp_dir2 uuid2 stdout_path2 stderr_path2 : String)
        (inv1 : invocation) (rc1 : Int) (inv2 : invocation) (rc2 : Int),
        event.exec .atomic_mount inv1 rc1
          ∈ (self.generate_module cfg w crd argv tmp_dir uuid stdout_path stderr_path).2.trace →
        event.exec .atomic_mount inv2 rc2
          ∈ (self2.generate_module cfg w2 crd2 argv2 tmp_dir2 uuid2 stdout_path2
              stderr_path2).2.trace →
        tmp_dir ≠ tmp_dir2 → inv1.cmd[3]? ≠ inv2.cmd[3]?) := by
  refine ⟨?_, ?_, ?_, ?_⟩
  · obtain ⟨rc, rest, ht⟩ := generate_module_trace_head cfg w self crd argv tmp_dir uuid
      stdout_path stderr_path
    refine ⟨_, rc, rest, ht, ?_⟩
    simp [command, StdMap.index_fst]
  · intro hcan
    have hcount : self.data_files.count crd.distro_name = 1 := by
      unfold docker_backend.can_generate_module at hcan
      split at hcan
      · exact absurd hcan (by decide)
      · split at hcan
        · rename_i hh
          exact hh.1
        · exact absurd hcan (by decide)
    obtain ⟨v, hv, hmem⟩ := StdMap.lookup_of_count _ _ hcount
    exact ⟨v, hmem, by rw [hv]; rfl⟩
  · intro w2 self2 crd2 argv2 tmp_dir2 uuid2 stdout_path2 stderr_path2 inv1 rc1 inv2 rc2 h1 h2
    have e1 := (generate_module_commands cfg w self crd argv tmp_dir uuid stdout_path
      stderr_path).1 inv1 rc1 h1
    have e2 := (generate_module_commands cfg w2 self2 crd2 argv2 tmp_dir2 uuid2 stdout_path2
      stderr_path2).1 inv2 rc2 h2
    rw [e1, e2]
    constructor
    · intro hne
      simpa using hne
    · intro hne
      simp only [List.getElem?_cons_succ, List.getElem?_cons_zero, ne_eq, Option.some.injEq]
      exact fun h => hne (String.append_right_cancel _ _ _ h)
  · intro w2 self2 crd2 argv2 tmp_dir2 uuid2 stdout_path2 stderr_path2 inv1 rc1 inv2 rc2 h1 h2
      hne
    obtain ⟨i1, e1⟩ := (generate_module_commands cfg w self crd argv tmp_dir uuid stdout_path
      stderr_path).2 inv1 rc1 h1
    obtain ⟨i2, e2⟩ := (generate_module_commands cfg w2 self2 crd2 argv2 tmp_dir2 uuid2
      stdout_path2 stderr_path2).2 inv2 rc2 h2
    rw [e1, e2]
    simp only [List.getElem?_cons_succ, List.getElem?_cons_zero, ne_eq, Option.some.injEq]
    exact fun h => hne (String.append_right_cancel _ _ _ h)

/-- Exercises `docker_generate_module_helper_command` on the sample request,
which the sample container backend accepts: the helper is given the
description file Fedora38.json and the request uuid u1. -/
theorem docker_generate_module_helper_command_witness :
    sample_docker.can_generate_module sample_zip_request = true
    ∧ ∃ inv rc rest,
      (sample_docker.generate_module sample_config sample_world sample_zip_request
          ["stap", "-v"] "/tmp/t" "u1" "/tmp/t/out" "/tmp/t/err").2.trace
        = event.ofstream_write "/tmp/t/build_data.json" "{}"
          :: event.exec .build_image inv rc :: rest
      ∧ inv.cmd = ["python3", "/usr/libexec/systemtap/httpd/docker/stap_build_docker_image.py",
          "--distro-file", "/usr/share/systemtap/httpd/docker/Fedora38.json",
          "--build-file", "/tmp/t/build_data.json",
          "--data-dir", "/usr/share/systemtap/httpd/docker", "u1"] := by
  obtain ⟨inv, rc, rest, ht, hcmd⟩ :=
    (docker_generate_module_helper_command sample_config sample_world sample_docker
      sample_zip_request ["stap", "-v"] "/tmp/t" "u1" "/tmp/t/out" "/tmp/t/err").1
  have hw : event.ofstream_write ("/tmp/t" ++ "/build_data.json")
      (sample_world.get_json_string sample_zip_request)
      = event.ofstream_write "/tmp/t/build_data.json" "{}" := by decide
  exact ⟨by decide, inv, rc, rest, by rw [ht, hw], hcmd.trans (by decide)⟩

/-- C15: every command of a container build other than the run of stap has its
output captured to tmp_dir/docker_stdout and tmp_dir/docker_stderr when the
request's verbosity is below 3 and to the caller's stdout and stderr paths
when it is 3 or more; the run of stap is captured to the caller's paths at
every verbosity. -/
theorem docker_generate_module_capture_paths (cfg : config) (w : world)
    (self : docker_backend) (crd : client_request_data) (argv : List String)
    (tmp_dir uuid stdout_path stderr_path : String) (site : call_site) (inv : invocation)
    (rc : Int)
    (hmem : event.exec site inv rc
      ∈ (self.generate_module cfg w crd argv tmp_dir uuid stdout_path stderr_path).2.trace) :
    (site = .stap → inv.stdout_path = stdout_path ∧ inv.stderr_path = stderr_path)
    ∧ (site ≠ .stap → crd.verbose < 3 →
        inv.stdout_path = tmp_dir ++ "/docker_stdout"
        ∧ inv.stderr_path = tmp_dir ++ "/docker_stderr")
    ∧ (site ≠ .stap → 3 ≤ crd.verbose →
        inv.stdout_path = stdout_path ∧ inv.stderr_path = stderr_path) := by
  have key : (site = .stap → inv.stdout_path = stdout_path ∧ inv.stderr_path = stderr_path)
      ∧ (site ≠ .stap → inv.stdout_path = docker_stdout_path crd tmp_dir stdout_path
          ∧ inv.stderr_path = docker_stderr_path crd tmp_dir stderr_path) := by
    have hs := generate_module_has_shape cfg w self crd argv tmp_dir uuid stdout_path
      stderr_path
    revert hmem
    generalize (self.generate_module cfg w crd argv tmp_dir uuid stdout_path stderr_path).2 = o
      at hs ⊢
    intro hmem
    rcases hs with ⟨rc1, _, rfl⟩ | ⟨_, u, rc2, _, rfl⟩ | ⟨_, u, R, hR, hs⟩ | ⟨_, R, hR, hs⟩
    · simp [build_data_event, build_image_event] at hmem
      obtain ⟨rfl, rfl, rfl⟩ := hmem
      simp [command]
    · simp [build_data_event, build_image_event, docker_file_event, docker_build_event]
        at hmem
      casesm* _ ∨ _ <;> casesm* _ ∧ _ <;> subst_vars <;> simp [command]
    · rcases hR with ⟨_, rfl⟩ | ⟨_, rrc, rfl⟩ <;>
        rcases hs with ⟨rcm, _, rfl⟩ | ⟨mrc, _, rfl⟩ | ⟨_, rfl⟩ | ⟨_, src, urc, rfl⟩ <;>
        simp [build_data_event, build_image_event, docker_file_event, docker_build_event,
          mkdir_event, mount_event, stap_event, unmount_event, rmi_event] at hmem <;>
        (try casesm* _ ∨ _) <;> casesm* _ ∧ _ <;> subst_vars <;> simp [command]
    · rcases hR with ⟨_, rfl⟩ | ⟨_, rrc, rfl⟩ <;>
        rcases hs with ⟨rcm, _, rfl⟩ | ⟨mrc, _, rfl⟩ | ⟨_, rfl⟩ | ⟨_, src, urc, rfl⟩ <;>
        simp [build_data_event, build_image_event, docker_file_event, docker_build_event,
          mkdir_event, mount_event, stap_event, unmount_event, rmi_event] at hmem <;>
        (try casesm* _ ∨ _) <;> casesm* _ ∧ _ <;> subst_vars <;> simp [command]
  refine ⟨key.1, ?_, ?_⟩
  · intro hsite hlow
    have h := key.2 hsite
    have hv : ¬ crd.verbose ≥ 3 := not_le.mpr hlow
    simpa [docker_stdout_path, docker_stderr_path, hv] using h
  · intro hsite hhigh
    have h := key.2 hsite
    have hv : crd.verbose ≥ 3 := hhigh
    simpa [docker_stdout_path, docker_stderr_path, hv] using h

/-- Exercises `docker_generate_module_capture_paths`: at verbosity 0 the mount
is captured to /tmp/t/docker_stdout, at verbosity 3 to the caller's path
/tmp/t/out, and stap is captured to /tmp/t/out at verbosity 0. -/
theorem docker_generate_module_capture_paths_witness :
    (∃ inv rc, event.exec .atomic_mount inv rc
        ∈ (sample_docker.generate_module sample_config sample_world sample_request
            ["stap", "-v"] "/tmp/t" "u1" "/tmp/t/out" "/tmp/t/err").2.trace
      ∧ inv.stdout_path = "/tmp/t/docker_stdout")
    ∧ (∃ inv rc, event.exec .atomic_mount inv rc
        ∈ (sample_docker.generate_module sample_config sample_world
            { sample_request with verbose := 3 }
            ["stap", "-v"] "/tmp/t" "u1" "/tmp/t/out" "/tmp/t/err").2.trace
      ∧ inv.stdout_path = "/tmp/t/out")
    ∧ (∃ inv rc, event.exec .stap inv rc
        ∈ (sample_docker.generate_module sample_config sample_world sample_request
            ["stap", "-v"] "/tmp/t" "u1" "/tmp/t/out" "/tmp/t/err").2.trace
      ∧ inv.stdout_path = "/tmp/t/out") := by
  have h1 : event.exec .atomic_mount
      (command sample_request ["atomic", "mount", "u1", "/tmp/t/sysroot"]
        "/tmp/t/docker_stdout" "/tmp/t/docker_stderr") 0
      ∈ (sample_docker.generate_module sample_config sample_world sample_request
          ["stap", "-v"] "/tmp/t" "u1" "/tmp/t/out" "/tmp/t/err").2.trace := by decide
  have h2 : event.exec .atomic_mount
      (command { sample_request with verbose := 3 } ["atomic", "mount", "u1", "/tmp/t/sysroot"]
        "/tmp/t/out" "/tmp/t/err") 0
      ∈ (sample_docker.generate_module sample_config sample_world
          { sample_request with verbose := 3 }
          ["stap", "-v"] "/tmp/t" "u1" "/tmp/t/out" "/tmp/t/err").2.trace := by decide
  have h3 : event.exec .stap
      (command sample_request ["/usr/bin/stap", "--sysroot=/tmp/t/sysroot", "-v"]
        "/tmp/t/out" "/tmp/t/err") 3
      ∈ (sample_docker.generate_module sample_config sample_world sample_request
          ["stap", "-v"] "/tmp/t" "u1" "/tmp/t/out" "/tmp/t/err").2.trace := by decide
  refine ⟨⟨_, _, h1, ?_⟩, ⟨_, _, h2, ?_⟩, ⟨_, _, h3, ?_⟩⟩
  · exact (((docker_generate_module_capture_paths _ _ _ _ _ _ _ _ _ _ _ _ h1).2.1
      (by decide) (by decide)).1).trans (by decide)
  · exact ((docker_generate_module_capture_paths _ _ _ _ _ _ _ _ _ _ _ _ h2).2.2
      (by decide) (by decide)).1
  · exact ((docker_generate_module_capture_paths _ _ _ _ _ _ _ _ _ _ _ _ h3).1 rfl).1

/-- C12, as stated, fails: on the sample host the request with distribution
name Fedora38 is rejected by the local and by the container backend, while the
same request with the lower-cased name fedora38 is accepted by both. -/
theorem can_generate_module_distro_case_counterexample :
    transform_tolower "Fedora38" = "fedora38"
    ∧ (local_backend.ctor sample_host).can_generate_module
        { sample_request with distro_name := "Fedora38" } = false
    ∧ (local_backend.ctor sample_host).can_generate_module
        { sample_request with distro_name := transform_tolower "Fedora38" } = true
    ∧ (docker_backend.ctor sample_config sample_host).can_generate_module
        { sample_request with distro_name := "Fedora38" } = false
    ∧ (docker_backend.ctor sample_config sample_host).can_generate_module
        { sample_request with distro_name := transform_tolower "Fedora38" } = true := by
  decide

/-- C12, amended: both backends compare the request's distribution name as it
is given. For a request whose distribution name is in lower case the result is
the result for the lower-cased name; a request whose distribution name is not
in lower case is rejected by every backend whose probe data is in lower case,
and the constructors record lower-case names only. -/
theorem can_generate_module_distro_case (l : local_backend) (d : docker_backend)
    (req : client_request_data) :
    (transform_tolower req.distro_name = req.distro_name →
      l.can_generate_module req
        = l.can_generate_module { req with distro_name := transform_tolower req.distro_name }
      ∧ d.can_generate_module req
        = d.can_generate_module { req with distro_name := transform_tolower req.distro_name })
    ∧ (transform_tolower req.distro_name ≠ req.distro_name →
      (transform_tolower l.distro_name = l.distro_name → l.can_generate_module req = false)
      ∧ ((∀ e ∈ d.data_files, transform_tolower e.1 = e.1) →
          d.can_generate_module req = false))
    ∧ (∀ (cfg : config) (h : host),
      transform_tolower (local_backend.ctor h).distro_name = (local_backend.ctor h).distro_name
      ∧ (∀ e ∈ (docker_backend.ctor cfg h).data_files, transform_tolower e.1 = e.1)
      ∧ (transform_tolower req.distro_name ≠ req.distro_name →
          (local_backend.ctor h).can_generate_module req = false
          ∧ (docker_backend.ctor cfg h).can_generate_module req = false)) := by
  have hl : ∀ l : local_backend, transform_tolower req.distro_name ≠ req.distro_name →
      transform_tolower l.distro_name = l.distro_name → l.can_generate_module req = false := by
    intro l hne hlow
    unfold local_backend.can_generate_module
    split
    · rename_i hh
      exact absurd (hh.2.2 ▸ hlow) hne
    · rfl
  have hd : ∀ d : docker_backend, transform_tolower req.distro_name ≠ req.distro_name →
      (∀ e ∈ d.data_files, transform_tolower e.1 = e.1) →
      d.can_generate_module req = false := by
    intro d hne hlow
    unfold docker_backend.can_generate_module
    split
    · rfl
    · split
      · rename_i hh
        obtain ⟨v, hv⟩ := (StdMap.count_eq_one_iff _ _).mp hh.1
        exact absurd (hlow _ hv) hne
      · rfl
  refine ⟨?_, fun hne => ⟨hl l hne, hd d hne⟩, ?_⟩
  · intro hlow
    rw [hlow]
    exact ⟨rfl, rfl⟩
  · intro cfg h
    exact ⟨local_ctor_distro_lower h, docker_ctor_keys_lower cfg h,
      fun hne => ⟨hl _ hne (local_ctor_distro_lower h), hd _ hne (docker_ctor_keys_lower cfg h)⟩⟩

/-- Exercises `can_generate_module_distro_case`: the constructed backends
reject Fedora38 because it is not in lower case, and treat fedora38 like its
lower-cased form. -/
theorem can_generate_module_distro_case_witness :
    ((local_backend.ctor sample_host).can_generate_module
        { sample_request with distro_name := "Fedora38" } = false
      ∧ (docker_backend.ctor sample_config sample_host).can_generate_module
        { sample_request with distro_name := "Fedora38" } = false)
    ∧ (local_backend.ctor sample_host).can_generate_module sample_request
        = (local_backend.ctor sample_host).can_generate_module
            { sample_request with distro_name := transform_tolower sample_request.distro_name } :=
  ⟨((can_generate_module_distro_case (local_backend.ctor sample_host)
      (docker_backend.ctor sample_config sample_host)
      { sample_request with distro_name := "Fedora38" }).2.2 sample_config sample_host).2.2
      (by decide),
   ((can_generate_module_distro_case (local_backend.ctor sample_host)
      (docker_backend.ctor sample_config sample_host) sample_request).1 (by decide)).1⟩

/-- C16: `backends_atexit_handler` deletes exactly the saved backends, each
once and in order, leaves the other objects alone and empties the saved list;
run again, any number of times, it changes nothing; on a registry that was
never populated it changes nothing; and at process exit, where it runs once
for every call of `get_backends`, the three backends built by `get_backends`
are deleted once each. -/
theorem backends_atexit_handler_idempotent (st : process_state) :
    (backends_atexit_handler st).saved_backends = []
    ∧ (backends_atexit_handler st).deleted = st.deleted ++ st.saved_backends
    ∧ (∀ p ∈ st.saved_backends, (backends_atexit_handler st).deref p = none)
    ∧ (∀ p, p ∉ st.saved_backends → (backends_atexit_handler st).deref p = st.deref p)
    ∧ backends_atexit_handler (backends_atexit_handler st) = backends_atexit_handler st
    ∧ (∀ n : Nat, Nat.iterate backends_atexit_handler (n + 1) st = backends_atexit_handler st)
    ∧ (st.saved_backends = [] → backends_atexit_handler st = st)
    ∧ (∀ (cfg : config) (h : host) (out : List Nat), st.saved_backends = [] →
        (run_atexit_handlers (get_backends cfg h st out).1).deleted
          = st.deleted ++ [st.heap.length, st.heap.length + 1, st.heap.length + 2]
        ∧ (run_atexit_handlers (get_backends cfg h st out).1).saved_backends = []
        ∧ run_atexit_handlers (get_backends cfg h st out).1
          = backends_atexit_handler (get_backends cfg h st out).1) := by
  have hidem : ∀ s : process_state,
      backends_atexit_handler (backends_atexit_handler s) = backends_atexit_handler s :=
    fun s => backends_atexit_handler_empty _ (backends_atexit_handler_saved s)
  have hiter : ∀ (s : process_state) (n : Nat),
      Nat.iterate backends_atexit_handler (n + 1) s = backends_atexit_handler s := by
    intro s n
    induction n with
    | zero => rfl
    | succ k ih =>
      rw [Function.iterate_succ_apply', ih]
      exact hidem s
  have hdel : ∀ s : process_state,
      (backends_atexit_handler s).deleted = s.deleted ++ s.saved_backends := by
    intro s
    by_cases hs : s.saved_backends = []
    · rw [backends_atexit_handler_empty s hs, hs]
      simp
    · have : backends_atexit_handler s
          = { s.saved_backends.foldl (fun s it => s.delete it) s with saved_backends := [] } := by
        simp [backends_atexit_handler, hs]
      rw [this]
      exact (foldl_delete s.saved_backends s).1
  refine ⟨backends_atexit_handler_saved st, hdel st, ?_, ?_, hidem st, hiter st,
    backends_atexit_handler_empty st, ?_⟩
  · intro p hp
    have hs : st.saved_backends ≠ [] := fun h => by simp [h] at hp
    have : backends_atexit_handler st
        = { st.saved_backends.foldl (fun s it => s.delete it) st with saved_backends := [] } := by
      simp [backends_atexit_handler, hs]
    rw [this]
    exact (foldl_delete st.saved_backends st).2.2.2.2.1 p hp
  · intro p hp
    by_cases hs : st.saved_backends = []
    · rw [backends_atexit_handler_empty st hs]
    · have : backends_atexit_handler st
          = { st.saved_backends.foldl (fun s it => s.delete it) st with saved_backends := [] } := by
        simp [backends_atexit_handler, hs]
      rw [this]
      exact (foldl_delete st.saved_backends st).2.2.2.2.2 p hp
  · intro cfg h out hs
    have hrun : run_atexit_handlers (get_backends cfg h st out).1
        = backends_atexit_handler (get_backends cfg h st out).1 := by
      unfold run_atexit_handlers
      rw [get_backends_first cfg h st out hs]
      exact hiter _ st.atexit_registered
    rw [hrun]
    refine ⟨?_, backends_atexit_handler_saved _, rfl⟩
    rw [hdel, get_backends_first cfg h st out hs]

/-- Exercises `backends_atexit_handler_idempotent` on the registry built by
two calls of `get_backends`: the two runs of the handler at exit delete the
pointers 0, 1, 2 once each, and no backend is left. -/
theorem backends_atexit_handler_idempotent_witness :
    (run_atexit_handlers (get_backends sample_config sample_host
        (get_backends sample_config sample_host initial_state []).1 []).1).deleted = [0, 1, 2]
    ∧ (get_backends sample_config sample_host
        (get_backends sample_config sample_host initial_state []).1 []).1.atexit_registered = 2
    ∧ (backends_atexit_handler (get_backends sample_config sample_host initial_state []).1).deleted
        = [0, 1, 2]
    ∧ backends_atexit_handler initial_state = initial_state := by
  obtain ⟨_, h2, _, _, _, h6, h7, h8⟩ := backends_atexit_handler_idempotent
    (get_backends sample_config sample_host initial_state []).1
  refine ⟨?_, by decide, h2.trans (by decide), by decide⟩
  unfold run_atexit_handlers
  have hreg : (get_backends sample_config sample_host
        (get_backends sample_config sample_host initial_state []).1 []).1.atexit_registered
      = 1 + 1 := by decide
  rw [hreg]
  have hsame : ∀ n, Nat.iterate backends_atexit_handler (n + 1)
      (get_backends sample_config sample_host
        (get_backends sample_config sample_host initial_state []).1 []).1
      = backends_atexit_handler (get_backends sample_config sample_host
        (get_backends sample_config sample_host initial_state []).1 []).1 :=
    (backends_atexit_handler_idempotent _).2.2.2.2.2.1
  rw [hsame 1]
  decide

/-- C17, what the code does: for a header line without CR, LF or NUL bytes whose
length with its CR LF terminator is below 256, `_read_header_line` consumes
the line and its CR LF, returns true exactly when the line is not empty, and
stores the line followed by a carriage return: `line[c - 1] = 0` cuts off the
line feed only. -/
theorem read_header_line_stores_carriage_return (content rest : List Char)
    (hclean : ∀ b ∈ content, b ≠ '\r' ∧ b ≠ '\n' ∧ b ≠ Char.ofNat 0)
    (hlen : content.length + 2 < MAX_HEADER_LINELENGTH) :
    jsonrpc_connection._read_header_line (content ++ '\r' :: '\n' :: rest)
      = .ok (decide (content ≠ []), String.mk (content ++ ['\r']), rest) := by
  have hloop := read_header_loop_line content MAX_HEADER_LINELENGTH [] rest
    (fun b hb => absurd hb (List.not_mem_nil _))
    (fun b hb => ⟨(hclean b hb).1, (hclean b hb).2.1⟩)
    (by simpa using hlen) (by unfold MAX_HEADER_LINELENGTH at hlen ⊢; omega)
  unfold jsonrpc_connection._read_header_line
  rw [hloop]
  simp only [List.nil_append]
  have hset : (content ++ ['\r', '\n']).set ((content ++ ['\r', '\n']).length - 1) (Char.ofNat 0)
      = content ++ ['\r', Char.ofNat 0] := by
    have : (content ++ ['\r', '\n']).length - 1 = content.length + 1 := by simp
    rw [this, List.set_append_right _ _ (by omega)]
    simp
  have htake : (content ++ ['\r', Char.ofNat 0]).takeWhile (fun b => b ≠ Char.ofNat 0)
      = content ++ ['\r'] := by
    rw [List.takeWhile_append_of_pos (fun b hb => by simpa using (hclean b hb).2.2)]
    congr 1
  have hret : decide ((content ++ ['\r', '\n']).length > 2
      ∧ (content ++ ['\r', '\n']).length < MAX_HEADER_LINELENGTH) = decide (content ≠ []) := by
    have h1 : (content ++ ['\r', '\n']).length = content.length + 2 := by simp
    rw [h1]
    by_cases hc : content = []
    · subst hc
      simp
    · have : 0 < content.length := List.length_pos.mpr hc
      simp [hc, hlen, this]
  rw [hset, hret]
  simp only [c_string, htake]

/-- Exercises `read_header_line_stores_carriage_return` on the header line
Content-Length: 5: the stored string ends in a carriage return, so it is not
the line without its terminator; on the empty line the stored string is a
carriage return and the result is false. -/
theorem read_header_line_stores_carriage_return_witness :
    jsonrpc_connection._read_header_line "Content-Length: 5\r\nrest".data
      = .ok (true, "Content-Length: 5\r", "rest".data)
    ∧ "Content-Length: 5\r" ≠ "Content-Length: 5"
    ∧ jsonrpc_connection._read_header_line "\r\nrest".data = .ok (false, "\r", "rest".data) :=
  ⟨read_header_line_stores_carriage_return "Content-Length: 5".data "rest".data
      (by decide) (by decide),
   by decide,
   read_header_line_stores_carriage_return [] "rest".data (by decide) (by decide)⟩

/-- C18: without STP_BULKMODE, when `struct _stp_entry` is small enough for
MAX_RESERVE_SIZE to be positive, every reservation succeeds and `len` bytes
are in the buffer, `stp_print_flush` with `len > 0` terminates (after at most
`len` iterations) having reserved and committed exactly
ceil(len / MAX_RESERVE_SIZE) entries, each of 1 to MAX_RESERVE_SIZE bytes,
whose sizes add up to `len` and whose contents, in commit order, are the
first `len` bytes of the buffer; `pb->len` is 0 afterwards and the failure
counter is unchanged. With `len = 0` it returns at once and changes
nothing. -/
theorem stp_print_flush_chunks (sizeof_stp_entry : Nat)
    (reserve_ok : transport → Nat → Bool) (fuel : Nat) (pb : _stp_pbuf) (tr : transport)
    (hsize : sizeof_stp_entry + 8 < 4080) (hok : ∀ t n, reserve_ok t n = true)
    (hbuf : pb.len ≤ pb.buf.length) (hfuel : pb.len ≤ fuel) :
    (0 < pb.len →
      ∃ entries : List (List Nat),
        stp_print_flush sizeof_stp_entry reserve_ok fuel pb tr
          = some ({ pb with len := 0 },
                  { tr with reserved := tr.reserved ++ entries.map List.length,
                            committed := tr.committed ++ entries })
        ∧ entries.length
            = (pb.len + MAX_RESERVE_SIZE sizeof_stp_entry - 1)
                / MAX_RESERVE_SIZE sizeof_stp_entry
        ∧ (∀ e ∈ entries, 1 ≤ e.length ∧ e.length ≤ MAX_RESERVE_SIZE sizeof_stp_entry)
        ∧ (entries.map List.length).sum = pb.len
        ∧ entries.flatten = pb.buf.take pb.len)
    ∧ (pb.len = 0 → stp_print_flush sizeof_stp_entry reserve_ok fuel pb tr = some (pb, tr)) := by
  constructor
  · intro hpos
    have hmax : 0 < MAX_RESERVE_SIZE sizeof_stp_entry := by
      unfold MAX_RESERVE_SIZE
      omega
    obtain ⟨entries, h1, h2, h3, h4, h5⟩ := stp_print_flush_loop_all sizeof_stp_entry
      reserve_ok hok hmax fuel pb.len pb.buf tr hfuel hbuf
    refine ⟨entries, ?_, h2, h3, h4, h5⟩
    have hne : ¬ pb.len = 0 := by omega
    simp only [stp_print_flush, hne, if_false, h1]
  · intro h0
    simp [stp_print_flush, h0]

/-- Exercises `stp_print_flush_chunks` with MAX_RESERVE_SIZE = 2 on a buffer
holding five bytes: three entries are committed and together they are the
five bytes. -/
theorem stp_print_flush_chunks_witness :
    MAX_RESERVE_SIZE 4070 = 2
    ∧ ∃ entries : List (List Nat),
        stp_print_flush 4070 (fun _ _ => true) 5 { len := 5, buf := [10, 11, 12, 13, 14, 15] }
            { reserved := [], committed := [], _stp_transport_failures := 0 }
          = some ({ len := 0, buf := [10, 11, 12, 13, 14, 15] },
                  { reserved := entries.map List.length, committed := entries,
                    _stp_transport_failures := 0 })
        ∧ entries.length = 3
        ∧ entries.flatten = [10, 11, 12, 13, 14] := by
  obtain ⟨entries, h1, h2, _, _, h5⟩ :=
    (stp_print_flush_chunks 4070 (fun _ _ => true) 5 { len := 5, buf := [10, 11, 12, 13, 14, 15] }
      { reserved := [], committed := [], _stp_transport_failures := 0 }
      (by decide) (fun _ _ => rfl) (by decide) (by decide)).1 (by decide)
  exact ⟨by decide, entries, h1, h2.trans (by decide), h5.trans (by decide)⟩

end Systemtap
